import Mathlib

/-!
# Hydroponics controller (lto-dev/hcs): growth cycle, irrigation and calibration

Shallow embedding of `GrowthManager.h`, `RelayController.h`, `SensorReader.h` and of
`updateRelaysBasedOnCycle` in `main.cpp`.

Conventions of the embedding (target: ESP32, where `int`, `long`, `unsigned long` and the
`time_t` printed with `%ld` are 32 bits wide):

* C integers are `Int`; a conversion to `unsigned long` is `toU32` (reduction modulo `2^32`),
  a result stored in a `long` is `wrapLong` (two's complement).
* `char id[32]` compared with `strcmp` is a `String` compared with `=`.
* a pointer that may be `nullptr` is an `Option`.
* a `float` that may be `NAN` is an `Option`; stage pH bounds are rationals.
-/

namespace HCS

/-! ## Machine arithmetic -/

/-- Value of a C integer after conversion to the 32-bit `unsigned long`. -/
def toU32 (x : Int) : Nat := (x % 4294967296).toNat

/-- Value of a C integer stored in the 32-bit signed `long` (two's complement). -/
def wrapLong (x : Int) : Int := (x + 2147483648) % 4294967296 - 2147483648

/-! ## GrowthManager.h -/

/-- Mirror of `struct GrowthStage`. -/
structure GrowthStage where
  duration : Int
  waterDuration : Int
  waterInterval : Int
  lightHours : Int
  lightStartHour : Int
  phMin : Rat
  phMax : Rat
deriving DecidableEq

/-- Mirror of `struct GrowthProfile`. -/
structure GrowthProfile where
  id : String
  name : String
  seedling : GrowthStage
  growing : GrowthStage
  harvesting : GrowthStage
deriving DecidableEq

/-- Mirror of `struct GrowthCycle`. -/
structure GrowthCycle where
  profileId : String
  startTime : Int
  active : Bool
deriving DecidableEq

/-- Constant `#define MAX_PROFILES 10`. -/
def MAX_PROFILES : Nat := 10

/-- Data members of `class GrowthManager`: the slots of `_profiles[MAX_PROFILES]`,
`_profileCount` and `_activeCycle`. -/
structure GrowthManager where
  profiles : List GrowthProfile
  profileCount : Nat
  activeCycle : GrowthCycle
deriving DecidableEq

/-- The scan `for (i; i < _profileCount; i++) if (strcmp(_profiles[i].id, id) == 0)`,
resumed at slot `i` with `n` iterations left; yields the first matching slot. -/
def scanProfiles (ps : List GrowthProfile) (id : String) (i : Nat) : Nat → Option Nat
  | 0 => none
  | n + 1 =>
    match ps[i]? with
    | some p => if p.id = id then some i else scanProfiles ps id (i + 1) n
    | none => scanProfiles ps id (i + 1) n

/-- Slot index behind the pointer returned by `GrowthManager::findProfileById`. -/
def findProfileIndex (m : GrowthManager) (id : String) : Option Nat :=
  scanProfiles m.profiles id 0 m.profileCount

/-- Method `GrowthManager::findProfileById`: the profile pointed to, `none` for `nullptr`. -/
def findProfileById (m : GrowthManager) (id : String) : Option GrowthProfile :=
  match findProfileIndex m id with
  | some i => m.profiles[i]?
  | none => none

/-- Local `unsigned long elapsedDays = (currentTime - _activeCycle.startTime) / (24 * 60 * 60)`:
both operands are converted to `unsigned long`, so the difference is taken modulo `2^32`. -/
def elapsedDays (currentTime : Int) (startTime : Int) : Nat :=
  toU32 (currentTime - startTime) / (24 * 60 * 60)

/-- Method `GrowthManager::getCurrentGrowthStage`. The comparisons are between `unsigned long`
and `int`, so the `int` side is converted to `unsigned long`. -/
def getCurrentGrowthStage (m : GrowthManager) (currentTime : Int) : String :=
  if !m.activeCycle.active then "None"
  else
    match findProfileById m m.activeCycle.profileId with
    | none => "Invalid"
    | some profile =>
      let elapsed := elapsedDays currentTime m.activeCycle.startTime
      if elapsed < toU32 profile.seedling.duration then "Seedling"
      else if elapsed < toU32 (profile.seedling.duration + profile.growing.duration) then "Growing"
      else "Harvesting"

/-- Method `GrowthManager::getCurrentStageSettings`, with the value of `time(nullptr)` passed in. -/
def getCurrentStageSettings (m : GrowthManager) (currentTime : Int) : Option GrowthStage :=
  if !m.activeCycle.active then none
  else
    match findProfileById m m.activeCycle.profileId with
    | none => none
    | some profile =>
      let elapsed := elapsedDays currentTime m.activeCycle.startTime
      if elapsed < toU32 profile.seedling.duration then some profile.seedling
      else if elapsed < toU32 (profile.seedling.duration + profile.growing.duration) then
        some profile.growing
      else some profile.harvesting

/-- Method `GrowthManager::addProfile`: the returned flag and the manager afterwards
(`saveProfiles` only writes to persistent storage). -/
def addProfile (m : GrowthManager) (newProfile : GrowthProfile) : Bool × GrowthManager :=
  if m.profileCount ≥ MAX_PROFILES then (false, m)
  else
    match findProfileIndex m newProfile.id with
    | some i => (true, { m with profiles := m.profiles.set i newProfile })
    | none =>
      (true, { m with profiles := m.profiles.set m.profileCount newProfile,
                      profileCount := m.profileCount + 1 })

/-- Method `GrowthManager::updateProfile`: the id of the stored entry is kept. -/
def updateProfile (m : GrowthManager) (id : String) (updatedProfile : GrowthProfile) :
    Bool × GrowthManager :=
  match findProfileIndex m id with
  | some i => (true, { m with profiles := m.profiles.set i { updatedProfile with id := id } })
  | none => (false, m)

/-- Method `GrowthManager::startGrowthCycle`; the `unsigned long startTime` is stored in a `long`. -/
def startGrowthCycle (m : GrowthManager) (profileId : String) (startTime : Int) :
    Bool × GrowthManager :=
  match findProfileIndex m profileId with
  | none => (false, m)
  | some _ =>
    (true, { m with activeCycle :=
      { profileId := profileId, startTime := wrapLong startTime, active := true } })

/-- Method `GrowthManager::stopGrowthCycle`. -/
def stopGrowthCycle (m : GrowthManager) : GrowthManager :=
  { m with activeCycle := { m.activeCycle with active := false } }

/-- Entry `GrowthManager::DEFAULT_PROFILES[0]`. -/
def tomatoes : GrowthProfile :=
  { id := "tomatoes", name := "Tomatoes",
    seedling := ⟨14, 5, 60, 8, 6, 5.5, 6.5⟩,
    growing := ⟨35, 5, 30, 12, 6, 5.8, 6.2⟩,
    harvesting := ⟨21, 5, 45, 10, 6, 6.0, 6.5⟩ }

/-- Entry `GrowthManager::DEFAULT_PROFILES[1]`. -/
def peppers : GrowthProfile :=
  { id := "peppers", name := "Peppers",
    seedling := ⟨14, 5, 120, 10, 6, 5.5, 6.5⟩,
    growing := ⟨30, 5, 45, 14, 6, 5.8, 6.3⟩,
    harvesting := ⟨14, 5, 60, 12, 6, 5.8, 6.5⟩ }

/-- Entry `GrowthManager::DEFAULT_PROFILES[2]`. -/
def lettuce : GrowthProfile :=
  { id := "lettuce", name := "Lettuce",
    seedling := ⟨7, 5, 90, 10, 6, 5.6, 6.2⟩,
    growing := ⟨21, 5, 40, 12, 6, 5.6, 6.2⟩,
    harvesting := ⟨7, 5, 30, 12, 6, 5.8, 6.0⟩ }

/-- Table `GrowthManager::DEFAULT_PROFILES`. -/
def DEFAULT_PROFILES : List GrowthProfile := [tomatoes, peppers, lettuce]

/-- Content of an array slot that was never written. -/
def blankProfile : GrowthProfile :=
  { id := "", name := "", seedling := ⟨0, 0, 0, 0, 0, 0, 0⟩,
    growing := ⟨0, 0, 0, 0, 0, 0, 0⟩, harvesting := ⟨0, 0, 0, 0, 0, 0, 0⟩ }

/-- Manager after `loadProfiles` found no stored catalog: the three defaults in slots
0..2 of the ten slots, and the given cycle. -/
def defaultManager (c : GrowthCycle) : GrowthManager :=
  { profiles := DEFAULT_PROFILES ++ List.replicate 7 blankProfile,
    profileCount := 3,
    activeCycle := c }

/-- A catalog filled to `MAX_PROFILES`: the three defaults and seven further ids. -/
def fullManager : GrowthManager :=
  { profiles := DEFAULT_PROFILES ++
      [{ blankProfile with id := "basil" }, { blankProfile with id := "mint" },
       { blankProfile with id := "kale" }, { blankProfile with id := "chard" },
       { blankProfile with id := "rocket" }, { blankProfile with id := "cress" },
       { blankProfile with id := "sage" }],
    profileCount := 10,
    activeCycle := ⟨"", 0, false⟩ }

/-! ## RelayController.h -/

/-- Constant `#define RELAY_PUMP 0`. -/
def RELAY_PUMP : Nat := 0

/-- Constant `#define RELAY_LIGHTS 1`. -/
def RELAY_LIGHTS : Nat := 1

/-- Constant `#define RELAY_PH_UP 2`. -/
def RELAY_PH_UP : Nat := 2

/-- Constant `#define RELAY_PH_DOWN 3`. -/
def RELAY_PH_DOWN : Nat := 3

/-- Constant `#define RELAY_COUNT 4`. -/
def RELAY_COUNT : Nat := 4

/-- The `state` members of `RelayController::relays[RELAY_COUNT]`, one field per slot. -/
structure RelayController where
  pump : Bool
  lights : Bool
  phUp : Bool
  phDown : Bool
deriving DecidableEq

/-- Method `RelayController::setState`: a relay number outside `0..RELAY_COUNT-1` is ignored. -/
def RelayController.setState (r : RelayController) (relayNum : Nat) (state : Bool) :
    RelayController :=
  match relayNum with
  | 0 => { r with pump := state }
  | 1 => { r with lights := state }
  | 2 => { r with phUp := state }
  | 3 => { r with phDown := state }
  | _ => r

/-- Method `RelayController::getState`: `false` for a relay number outside the table. -/
def RelayController.getState (r : RelayController) (relayNum : Nat) : Bool :=
  match relayNum with
  | 0 => r.pump
  | 1 => r.lights
  | 2 => r.phUp
  | 3 => r.phDown
  | _ => false

/-! ## main.cpp: `updateRelaysBasedOnCycle` -/

/-- Effects of one call of `updateRelaysBasedOnCycle`, in program order: calls of
`relayController.setState` and the MQTT publications actually sent. -/
inductive Action where
  | setState (relayNum : Nat) (state : Bool)
  | publishLightsState (state : Bool)
  | publishPumpState (state : Bool)
  | publishAlert (message : String)
deriving DecidableEq

/-- Globals read and written by `updateRelaysBasedOnCycle`: `relayController`,
`lastWateringTime`, `pumpOnTime` and the function-local `static bool firstRun`. -/
structure Globals where
  relayController : RelayController
  lastWateringTime : Int
  pumpOnTime : Int
  firstRun : Bool
deriving DecidableEq

/-- State at process start: all relays off, both timers 0, `firstRun = true`. -/
def Globals.initial : Globals :=
  { relayController := ⟨false, false, false, false⟩,
    lastWateringTime := 0, pumpOnTime := 0, firstRun := true }

/-- What one call reads from its environment: `time(nullptr)`, the `tm_hour` and `tm_min`
that `localtime_r` derives from it, `mqttManager->connected()` and `sensorReader.getPH()`
(`none` for `NAN`). -/
structure TickInput where
  now : Int
  currentHour : Int
  currentMinute : Int
  connected : Bool
  phValue : Option Rat

/-- The publication guarded by `if (mqttManager->connected())`. -/
def publishIf (connected : Bool) (a : Action) : List Action :=
  if connected then [a] else []

/-- Local `shouldLightsBeOn` of `updateRelaysBasedOnCycle` (C `%` truncates toward zero). -/
def shouldLightsBeOn (stage : GrowthStage) (currentHour : Int) : Bool :=
  let lightStartHour := stage.lightStartHour
  let lightEndHour := Int.tmod (lightStartHour + stage.lightHours) 24
  if lightStartHour < lightEndHour then
    decide (currentHour ≥ lightStartHour) && decide (currentHour < lightEndHour)
  else
    decide (currentHour ≥ lightStartHour) || decide (currentHour < lightEndHour)

/-- Light section of `updateRelaysBasedOnCycle`: the relay is written, and the state
published, only when it differs from `shouldLightsBeOn`. -/
def lightControl (stage : GrowthStage) (inp : TickInput) (g : Globals) :
    Globals × List Action :=
  let should := shouldLightsBeOn stage inp.currentHour
  let currentLightState := g.relayController.getState RELAY_LIGHTS
  if currentLightState != should then
    ({ g with relayController := g.relayController.setState RELAY_LIGHTS should },
      Action.setState RELAY_LIGHTS should ::
        publishIf inp.connected (Action.publishLightsState should))
  else (g, [])

/-- Section "Water pump control based on interval" of `updateRelaysBasedOnCycle`.
`wateringIntervalSeconds` is an `unsigned long`, so the `time_t` difference is converted
to `unsigned long` for the comparison. -/
def wateringStart (stage : GrowthStage) (inp : TickInput) (g : Globals) :
    Globals × List Action :=
  let wateringIntervalSeconds := toU32 (stage.waterInterval * 60)
  if g.firstRun then
    ({ g with relayController := g.relayController.setState RELAY_PUMP true,
              lastWateringTime := inp.now, firstRun := false },
      Action.setState RELAY_PUMP true ::
        publishIf inp.connected (Action.publishPumpState true))
  else if g.lastWateringTime > 0 ∧
      toU32 (inp.now - g.lastWateringTime) ≥ wateringIntervalSeconds then
    ({ g with relayController := g.relayController.setState RELAY_PUMP true,
              lastWateringTime := inp.now },
      Action.setState RELAY_PUMP true ::
        publishIf inp.connected (Action.publishPumpState true))
  else (g, [])

/-- Section "Turn off pump after watering duration" of `updateRelaysBasedOnCycle`.
`pumpRunTime >= wateringDurationSeconds` compares a `time_t` with an `unsigned long`. -/
def pumpDurationControl (stage : GrowthStage) (inp : TickInput) (g : Globals) :
    Globals × List Action :=
  let pumpCurrentState := g.relayController.getState RELAY_PUMP
  if pumpCurrentState then
    if g.pumpOnTime = 0 then ({ g with pumpOnTime := inp.now }, [])
    else
      let wateringDurationSeconds := toU32 (stage.waterDuration * 60)
      let pumpRunTime := wrapLong (inp.now - g.pumpOnTime)
      if toU32 pumpRunTime ≥ wateringDurationSeconds then
        ({ g with relayController := g.relayController.setState RELAY_PUMP false,
                  pumpOnTime := 0 },
          Action.setState RELAY_PUMP false ::
            publishIf inp.connected (Action.publishPumpState false))
      else (g, [])
  else if g.pumpOnTime ≠ 0 then ({ g with pumpOnTime := 0 }, [])
  else (g, [])

/-- Section "pH alerts based on current stage's optimal range". -/
def stagePhAlert (stage : GrowthStage) (currentStageName : String) (inp : TickInput) :
    List Action :=
  match inp.phValue with
  | none => []
  | some phValue =>
    let phOutOfRange := decide (phValue < stage.phMin) || decide (phValue > stage.phMax)
    if phOutOfRange && inp.connected then
      [Action.publishAlert
        ("pH " ++ (if phValue < stage.phMin then "too low" else "too high") ++
          " for " ++ currentStageName ++ " stage!")]
    else []

/-- Sections of `updateRelaysBasedOnCycle` after the three guards, for the stage found:
lights, watering start, pump duration, stage pH alert. -/
def controlWithStage (currentStage : GrowthStage) (currentStageName : String)
    (inp : TickInput) (g : Globals) : Globals × List Action :=
  let l := lightControl currentStage inp g
  let w := wateringStart currentStage inp l.1
  let d := pumpDurationControl currentStage inp w.1
  (d.1, l.2 ++ w.2 ++ d.2 ++ stagePhAlert currentStage currentStageName inp)

/-- One call of `updateRelaysBasedOnCycle`: the globals afterwards and the effects. The
call returns at once when no cycle is active, when `now < 1000000000`, or when
`getCurrentStageSettings` yields `nullptr`. -/
def updateRelaysBasedOnCycle (gm : GrowthManager) (inp : TickInput) (g : Globals) :
    Globals × List Action :=
  if !gm.activeCycle.active then (g, [])
  else if inp.now < 1000000000 then (g, [])
  else
    match getCurrentStageSettings gm inp.now with
    | none => (g, [])
    | some currentStage =>
      controlWithStage currentStage (getCurrentGrowthStage gm inp.now) inp g

/-! ## SensorReader.h: liquid level -/

/-- Modelled from the spec: the Arduino core function `map` is not among the sources; it
is the spec's linear map of the raw reading from [dry, full] to [0, 100], computed as the
core computes it, in `long` arithmetic with truncating division:
`(x - in_min) * (out_max - out_min) / (in_max - in_min) + out_min`. -/
def map (x in_min in_max out_min out_max : Int) : Int :=
  wrapLong (wrapLong (Int.tdiv (wrapLong (wrapLong (x - in_min) * wrapLong (out_max - out_min)))
    (wrapLong (in_max - in_min))) + out_min)

/-- Modelled from the spec: the Arduino macro `constrain(amt, low, high)` is not among the
sources; it is the spec's clamp, `amt < low ? low : (amt > high ? high : amt)`. -/
def constrain (amt low high : Int) : Int :=
  if amt < low then low else if amt > high then high else amt

/-- The members `lastLiquidValue` and `lastLiquidLevel` (`none` for `NAN`). -/
structure LiquidReadings where
  lastLiquidValue : Option Int
  lastLiquidLevel : Option Int
deriving DecidableEq

/-- Liquid part of `SensorReader::updateReadings`: `isReady` is `hx710b.is_ready()` and
`reading` the `long` returned by `hx710b.read()`, a 24-bit count that the `float` member
`lastLiquidValue` holds exactly and hands back to `map` unchanged. The level is an integer
held in a `float`. -/
def readLiquid (isReady : Bool) (reading : Int) (calibrationMin calibrationMax : Int) :
    LiquidReadings :=
  if isReady then
    let lastLiquidValue : Option Int := some reading
    if calibrationMax ≠ calibrationMin ∧ lastLiquidValue.isSome then
      { lastLiquidValue := lastLiquidValue,
        lastLiquidLevel :=
          some (constrain (map reading calibrationMin calibrationMax 0 100) 0 100) }
    else { lastLiquidValue := lastLiquidValue, lastLiquidLevel := none }
  else { lastLiquidValue := none, lastLiquidLevel := none }

/-! ## Runs of the control loop -/

/-- Effects of a tick that concern the pump: writes of the pump relay and pump
publications. -/
def isPumpAction : Action → Bool
  | Action.setState relayNum _ => relayNum == RELAY_PUMP
  | Action.publishPumpState _ => true
  | _ => false

/-- The pump events among the effects of a tick: the `publishPumpState` publications. -/
def pumpEvents (acts : List Action) : List Action :=
  acts.filter (fun a => match a with
    | Action.publishPumpState _ => true
    | _ => false)

/-- What can happen to the globals between two observations: a call of
`updateRelaysBasedOnCycle` from `loop`, or a relay written from outside the scheduler
(the MQTT callback of `setup`, the `/relay/...` handlers of the web server). The timers and
`firstRun` are written by `updateRelaysBasedOnCycle` only. -/
inductive Steps : Globals → Globals → Prop where
  | refl (g : Globals) : Steps g g
  | tick {g g2 : Globals} (gm : GrowthManager) (inp : TickInput) :
      Steps g g2 → Steps g (updateRelaysBasedOnCycle gm inp g2).1
  | external {g g2 : Globals} (relayNum : Nat) (state : Bool) :
      Steps g g2 →
      Steps g { g2 with relayController := g2.relayController.setState relayNum state }

/-- States the process can be in: those reached from the state at process start. -/
def Reachable (g : Globals) : Prop := Steps Globals.initial g

/-- Globals before tick number `k` of a run in which tick `k` is called with manager
`gm k` and environment `inp k`, and nothing else writes the relays. -/
def stateBefore (gm : Nat → GrowthManager) (inp : Nat → TickInput) (g0 : Globals) :
    Nat → Globals
  | 0 => g0
  | k + 1 => (updateRelaysBasedOnCycle (gm k) (inp k) (stateBefore gm inp g0 k)).1

/-- Effects of tick number `k` of such a run. -/
def tickActions (gm : Nat → GrowthManager) (inp : Nat → TickInput) (g0 : Globals)
    (k : Nat) : List Action :=
  (updateRelaysBasedOnCycle (gm k) (inp k) (stateBefore gm inp g0 k)).2

/-- A user profile that waters 5 minutes every minute. -/
def quickProfile : GrowthProfile :=
  { id := "quick", name := "Quick",
    seedling := ⟨14, 5, 1, 8, 6, 5.5, 6.5⟩,
    growing := ⟨35, 5, 1, 12, 6, 5.8, 6.2⟩,
    harvesting := ⟨21, 5, 1, 10, 6, 6.0, 6.5⟩ }

/-- The default catalog plus `quickProfile`, with a cycle on it started at 1700000000. -/
def quickManager : GrowthManager :=
  { profiles := DEFAULT_PROFILES ++ [quickProfile] ++ List.replicate 6 blankProfile,
    profileCount := 4,
    activeCycle := ⟨"quick", 1700000000, true⟩ }

/-- Environment of a tick at time `now`, at noon, broker connected, no pH reading. -/
def noonTick (now : Int) : TickInput :=
  { now := now, currentHour := 12, currentMinute := 0, connected := true, phValue := none }

/-! ## GrowthManager.h: persistent storage -/

/-- Content of the `Preferences` namespace "hydroGrowth": the int under "profileCount"
(0 when the key is absent), the profiles under the keys "profile0", "profile1", ... (the
keys are only ever written from 0 upward, so they form a list), and the cycle under
"activeCycle" (`none` when no value of `sizeof(GrowthCycle)` bytes is stored). -/
structure Preferences where
  profileCount : Nat
  profiles : List GrowthProfile
  activeCycle : Option GrowthCycle
deriving DecidableEq

/-- Method `GrowthManager::saveProfiles`: writes the count and the slots below it; keys
at or above the count keep their old value. -/
def saveProfiles (m : GrowthManager) (prefs : Preferences) : Preferences :=
  { prefs with profileCount := m.profileCount,
               profiles := m.profiles.take m.profileCount ++
                 prefs.profiles.drop m.profileCount }

/-- Method `GrowthManager::saveActiveCycle`. -/
def saveActiveCycle (m : GrowthManager) (prefs : Preferences) : Preferences :=
  { prefs with activeCycle := some m.activeCycle }

/-- The loop `for (i; i < _profileCount && i < MAX_PROFILES; i++) getBytes(...)` of
`loadProfiles`, resumed at slot `i` with `n` iterations left: a slot whose key is absent
keeps its content. -/
def loadSlots (stored : List GrowthProfile) (slots : List GrowthProfile) (i : Nat) :
    Nat → List GrowthProfile
  | 0 => slots
  | n + 1 =>
    match stored[i]? with
    | some p => loadSlots stored (slots.set i p) (i + 1) n
    | none => loadSlots stored slots (i + 1) n

/-- Method `GrowthManager::loadProfiles`: with a stored count of 0 the three defaults are
copied into slots 0..2 and saved; otherwise the stored slots are read. -/
def loadProfiles (m : GrowthManager) (prefs : Preferences) : GrowthManager × Preferences :=
  if prefs.profileCount = 0 then
    let m1 : GrowthManager :=
      { m with profiles := ((m.profiles.set 0 tomatoes).set 1 peppers).set 2 lettuce,
               profileCount := 3 }
    (m1, saveProfiles m1 prefs)
  else
    ({ m with profiles := loadSlots prefs.profiles m.profiles 0
                (min prefs.profileCount MAX_PROFILES),
              profileCount := prefs.profileCount }, prefs)

/-- Method `GrowthManager::loadActiveCycle`: a stored cycle is read and validated with the
same scan over the slots as `findProfileById`; an active cycle that matches no slot is
switched off and saved. Without a stored cycle a new inactive cycle is set. -/
def loadActiveCycle (m : GrowthManager) (prefs : Preferences) : GrowthManager × Preferences :=
  match prefs.activeCycle with
  | some c =>
    let m1 : GrowthManager := { m with activeCycle := c }
    let validCycle := (scanProfiles m1.profiles c.profileId 0 m1.profileCount).isSome
    if !validCycle && c.active then
      let m2 : GrowthManager := { m1 with activeCycle := { c with active := false } }
      (m2, saveActiveCycle m2 prefs)
    else (m1, prefs)
  | none => ({ m with activeCycle := ⟨"", 0, false⟩ }, prefs)

/-- Method `GrowthManager::begin`. -/
def begin (m : GrowthManager) (prefs : Preferences) : GrowthManager × Preferences :=
  loadActiveCycle (loadProfiles m prefs).1 (loadProfiles m prefs).2

/-- Method `GrowthManager::startGrowthCycle` together with its effect on the persistent
storage: the flag, the manager and the storage afterwards. -/
def GrowthManager.startGrowthCycle (m : GrowthManager) (prefs : Preferences)
    (profileId : String) (startTime : Int) : Bool × GrowthManager × Preferences :=
  let profileFound := (scanProfiles m.profiles profileId 0 m.profileCount).isSome
  if !profileFound then (false, m, prefs)
  else
    let m1 : GrowthManager := { m with activeCycle :=
      { profileId := profileId, startTime := wrapLong startTime, active := true } }
    (true, m1, saveActiveCycle m1 prefs)

/-- The stored catalog in slot order: what `getProfiles()` and `getProfileCount()` expose. -/
def storedProfiles (m : GrowthManager) : List GrowthProfile :=
  m.profiles.take m.profileCount

/-- Calls of the administrative operations of `GrowthManager`, successful or not, in any
order. -/
inductive ManagerSteps : GrowthManager → GrowthManager → Prop where
  | refl (m : GrowthManager) : ManagerSteps m m
  | addProfile {m m2 : GrowthManager} (p : GrowthProfile) :
      ManagerSteps m m2 → ManagerSteps m (addProfile m2 p).2
  | updateProfile {m m2 : GrowthManager} (id : String) (p : GrowthProfile) :
      ManagerSteps m m2 → ManagerSteps m (updateProfile m2 id p).2
  | startGrowthCycle {m m2 : GrowthManager} (profileId : String) (startTime : Int) :
      ManagerSteps m m2 → ManagerSteps m (startGrowthCycle m2 profileId startTime).2
  | stopGrowthCycle {m m2 : GrowthManager} :
      ManagerSteps m m2 → ManagerSteps m (stopGrowthCycle m2)

/-! ## PHMeter.h -/

/-- Data members of `class PHMeter`; the `float` members are rationals (exact
arithmetic). -/
structure PHMeter where
  adcValues : List Int
  phValues : List Rat
  slope : Rat
  intercept : Rat

/-- The sums `(sumX, sumY, sumXY, sumXX)` of `computeSlopeIntercept` after `i` rounds of
its loop. -/
def PHMeter.sums (m : PHMeter) : Nat → Rat × Rat × Rat × Rat
  | 0 => (0, 0, 0, 0)
  | i + 1 =>
    let s := PHMeter.sums m i
    let x : Rat := ((m.adcValues.getD i 0 : Int) : Rat)
    let y : Rat := m.phValues.getD i 0
    (s.1 + x, s.2.1 + y, s.2.2.1 + x * y, s.2.2.2 + x * x)

/-- Method `PHMeter::computeSlopeIntercept`: least squares over the `n = 3` points, with
slope 0 and intercept 7.0 when the denominator is zero. -/
def PHMeter.computeSlopeIntercept (m : PHMeter) : PHMeter :=
  let n : Rat := 3
  let s := PHMeter.sums m 3
  let sumX := s.1
  let sumY := s.2.1
  let sumXY := s.2.2.1
  let sumXX := s.2.2.2
  let denom := n * sumXX - sumX * sumX
  if denom ≠ 0 then
    let slope := (n * sumXY - sumX * sumY) / denom
    { m with slope := slope, intercept := (sumY - slope * sumX) / n }
  else { m with slope := 0, intercept := 7 }

/-- Method `PHMeter::setCalibration`. -/
def PHMeter.setCalibration (m : PHMeter) (adc_ph4 adc_ph7 adc_ph10 : Int) : PHMeter :=
  PHMeter.computeSlopeIntercept
    { m with adcValues := [adc_ph4, adc_ph7, adc_ph10], phValues := [4, 7, 10] }

/-- Method `PHMeter::adcToPH`. -/
def PHMeter.adcToPH (m : PHMeter) (adcValue : Int) : Rat :=
  m.slope * adcValue + m.intercept

/-! ## SensorReader.h: pH -/

/-- Floating-point quotient of two finite values; `none` stands for a result that is not a
finite number: a zero divisor gives an infinity or `NAN`. -/
def floatDiv (a b : Rat) : Option Rat :=
  if b = 0 then none else some (a / b)

/-- The two statements `intercept = 7.0 - slope * ph7ADC; lastPH = slope * adcValue +
intercept` for a given slope. An infinite or `NAN` slope makes every product and sum that
contains it infinite or `NAN`, hence `none`. -/
def segmentPH (slope : Option Rat) (ph7ADC adcValue : Rat) : Option Rat :=
  match slope with
  | none => none
  | some s =>
    let intercept := 7 - s * ph7ADC
    some (s * adcValue + intercept)

/-- The pH part of `SensorReader::updateReadings`: `adcValue` is `analogRead(PH_VALUE_PIN)`,
`phMeterPH` is what `ph.readPH()` would return. The result is `lastPH`, `none` when it is
not a finite number. -/
def sensorPH (adcValue ph4ADC ph7ADC ph10ADC : Rat) (phMeterPH : Option Rat) : Option Rat :=
  if ph4ADC > 0 ∧ ph7ADC > 0 then
    let lastPH := segmentPH (floatDiv (7 - 4) (ph7ADC - ph4ADC)) ph7ADC adcValue
    if ph10ADC > 0 ∧ adcValue > ph7ADC then
      segmentPH (floatDiv (10 - 7) (ph10ADC - ph7ADC)) ph7ADC adcValue
    else lastPH
  else phMeterPH

/-! ## main.cpp: `loop` and `checkAlerts` -/

/-- Constant `const float PH_MIN = 5.5`. -/
def PH_MIN : Rat := 5.5

/-- Constant `const float PH_MAX = 6.5`. -/
def PH_MAX : Rat := 6.5

/-- Constant `const int LIQUID_ALERT_PERCENT = 20`. -/
def LIQUID_ALERT_PERCENT : Int := 20

/-- The `levelPercent` of `loop`: `int levelPercent = 0; if (!isnan(liquidLevel))
levelPercent = (int)liquidLevel;`. -/
def loopLevelPercent (liquidLevel : Option Int) : Int :=
  match liquidLevel with
  | some level => level
  | none => 0

/-- The string `alertMsg` that `checkAlerts` builds; a `NAN` pH (`none`) fails both
comparisons. -/
def alertMsg (levelPercent : Int) (phValue : Option Rat) : String :=
  let m0 := ""
  let m1 := if levelPercent < LIQUID_ALERT_PERCENT then m0 ++ "Low water level! " else m0
  let m2 := match phValue with
    | some v => if v < PH_MIN then m1 ++ "pH too low! " else m1
    | none => m1
  match phValue with
  | some v => if v > PH_MAX then m2 ++ "pH too high! " else m2
  | none => m2

/-- Function `checkAlerts`: the alert is published when the message is not empty and the
broker is connected. -/
def checkAlerts (levelPercent : Int) (phValue : Option Rat) (connected : Bool) :
    List Action :=
  if (alertMsg levelPercent phValue).length > 0 ∧ connected = true then
    [Action.publishAlert (alertMsg levelPercent phValue)]
  else []

/-! ## WebServerManager.h: status projections -/

/-- The `secondsUntilLightTransition` of the `/status` handler, reported as
`light_info.seconds_until_next_change`. -/
def secondsUntilLightTransition (stage : GrowthStage) (lightsState : Bool)
    (currentHour currentMinute currentSecond : Int) : Int :=
  let lightStartHour := stage.lightStartHour
  let lightEndHour := Int.tmod (lightStartHour + stage.lightHours) 24
  if lightsState then
    if currentHour < lightEndHour then
      ((lightEndHour - currentHour) * 3600) - (currentMinute * 60) - currentSecond
    else
      (((lightEndHour + 24) - currentHour) * 3600) - (currentMinute * 60) - currentSecond
  else
    if currentHour < lightStartHour then
      ((lightStartHour - currentHour) * 3600) - (currentMinute * 60) - currentSecond
    else
      (((lightStartHour + 24) - currentHour) * 3600) - (currentMinute * 60) - currentSecond

/-- The `elapsedDays` of the `/growth-profile` handler: `long elapsedSeconds = now -
activeCycle.startTime; int elapsedDays = elapsedSeconds / (24 * 60 * 60);`. -/
def statusElapsedDays (now startTime : Int) : Int :=
  wrapLong (Int.tdiv (wrapLong (now - startTime)) (24 * 60 * 60))

/-- Quotient of two `int` values; `none` for a division by zero. -/
def intDiv (a b : Int) : Option Int :=
  if b = 0 then none else some (wrapLong (Int.tdiv a b))

/-- The three values written to `progress` by the `/growth-profile` handler. -/
structure Progress where
  seedling : Int
  growing : Int
  harvesting : Int
deriving DecidableEq

/-- The progress section of the `/growth-profile` handler for a found profile, in 32-bit
`int` arithmetic; `none` when a quotient divides by zero. -/
def stageProgress (profile : GrowthProfile) (elapsedDays : Int) : Option Progress :=
  let totalDuration := wrapLong (wrapLong (profile.seedling.duration +
    profile.growing.duration) + profile.harvesting.duration)
  let seedlingDuration := profile.seedling.duration
  let growingDuration := profile.growing.duration
  let harvestingDuration := profile.harvesting.duration
  if elapsedDays < seedlingDuration then
    match intDiv (wrapLong (elapsedDays * 100)) seedlingDuration with
    | some v => some ⟨v, 0, 0⟩
    | none => none
  else if elapsedDays < wrapLong (seedlingDuration + growingDuration) then
    match intDiv (wrapLong (wrapLong (elapsedDays - seedlingDuration) * 100))
        growingDuration with
    | some v => some ⟨100, v, 0⟩
    | none => none
  else if elapsedDays < totalDuration then
    match intDiv (wrapLong (wrapLong (wrapLong (elapsedDays - seedlingDuration) -
        growingDuration) * 100)) harvestingDuration with
    | some v => some ⟨100, 100, v⟩
    | none => none
  else some ⟨100, 100, 100⟩

/-! ## HydroAuth.h -/

/-- Data members of `class HydroAuth`. -/
structure HydroAuth where
  username : String
  password : String
  realm : String
  authFailureMessage : String
deriving DecidableEq

/-- The state set by the constructor `HydroAuth()`. -/
def HydroAuth.created : HydroAuth :=
  { username := "admin", password := "admin", realm := "Hydroponics Control",
    authFailureMessage := "Authentication Failed" }

/-- Method `HydroAuth::setUsername`. -/
def HydroAuth.setUsername (a : HydroAuth) (username : String) : HydroAuth :=
  { a with username := username }

/-- Method `HydroAuth::setPassword`. -/
def HydroAuth.setPassword (a : HydroAuth) (password : String) : HydroAuth :=
  { a with password := password }

/-- Method `HydroAuth::authenticate`: the returned flag for a request whose Authorization
header is `authorization` (`none` when the header is absent). The 401 response sent with a
`false` answer is left out. -/
def HydroAuth.authenticate (_a : HydroAuth) (authorization : Option String) : Bool :=
  match authorization with
  | none => false
  | some authHeader =>
    if "Basic ".toList.isPrefixOf authHeader.toList then true else false

/-! ## Orders and counts used by the properties -/

/-- Position of a stage name in the order Seedling, Growing, Harvesting. -/
def stageRank (name : String) : Nat :=
  if name = "Seedling" then 0
  else if name = "Growing" then 1
  else if name = "Harvesting" then 2
  else 3

/-- Number of hours `h` in 0..23 at which `shouldLightsBeOn` is true. -/
def lightHoursOn (stage : GrowthStage) : Nat :=
  ((List.range 24).filter (fun h => shouldLightsBeOn stage (h : Int))).length

/-- A user profile with very long stages: 19000 seedling days and 20000 growing days. -/
def slowProfile : GrowthProfile :=
  { id := "slow", name := "Slow",
    seedling := ⟨19000, 5, 60, 8, 6, 5.5, 6.5⟩,
    growing := ⟨20000, 5, 60, 12, 6, 5.8, 6.2⟩,
    harvesting := ⟨21, 5, 45, 10, 6, 6.0, 6.5⟩ }

/-- The default catalog plus `slowProfile`, with a cycle on it that starts at 2000000000. -/
def slowManager : GrowthManager :=
  { profiles := DEFAULT_PROFILES ++ [slowProfile] ++ List.replicate 6 blankProfile,
    profileCount := 4,
    activeCycle := ⟨"slow", 2000000000, true⟩ }

/-! ## Growth stage as a function of elapsed time -/

theorem toU32_of_range (x : Int) (h0 : 0 ≤ x) (h1 : x < 4294967296) : toU32 x = x.toNat := by
  unfold toU32
  rw [Int.emod_eq_of_lt h0 h1]

theorem stage_names_distinct :
    "Seedling" ≠ "Growing" ∧ "Seedling" ≠ "Harvesting" ∧ "Growing" ≠ "Harvesting" ∧
    "Growing" ≠ "Seedling" ∧ "Harvesting" ≠ "Seedling" ∧ "Harvesting" ≠ "Growing" := by
  decide

/-- C1 (counterexample). Default catalog, tomato cycle (durations 14, 35, 21) started at
1700000000: at `T + 49 d` the elapsed day count 49 is not below 14 + 35, so the stage is
Harvesting, not Growing. -/
theorem stage_at_day_49_is_harvesting :
    getCurrentGrowthStage (defaultManager ⟨"tomatoes", 1700000000, true⟩)
        (1700000000 + 49 * 86400) = "Harvesting" ∧
    getCurrentGrowthStage (defaultManager ⟨"tomatoes", 1700000000, true⟩)
        (1700000000 + 49 * 86400) ≠ "Growing" := by
  decide

/-- C1 (amended). For an active cycle that started at `T` on a stored profile whose stage
durations are (14, 35, 21) days, `getCurrentGrowthStage` answers Seedling at `T + 13 d`,
Growing at `T + 14 d` and at `T + 48 d`, Harvesting at `T + 49 d`, at `T + 50 d` and at
`T + 10000 d`. -/
theorem stage_boundaries_14_35_21 (m : GrowthManager) (p : GrowthProfile) (T : Int)
    (hactive : m.activeCycle.active = true)
    (hstart : m.activeCycle.startTime = T)
    (hfind : findProfileById m m.activeCycle.profileId = some p)
    (hs : p.seedling.duration = 14) (hg : p.growing.duration = 35)
    (hh : p.harvesting.duration = 21) :
    getCurrentGrowthStage m (T + 13 * 86400) = "Seedling" ∧
    getCurrentGrowthStage m (T + 14 * 86400) = "Growing" ∧
    getCurrentGrowthStage m (T + 48 * 86400) = "Growing" ∧
    getCurrentGrowthStage m (T + 49 * 86400) = "Harvesting" ∧
    getCurrentGrowthStage m (T + 50 * 86400) = "Harvesting" ∧
    getCurrentGrowthStage m (T + 10000 * 86400) = "Harvesting" := by
  have e13 : elapsedDays (T + 13 * 86400) T = 13 := by
    unfold elapsedDays; rw [add_sub_cancel_left]; decide
  have e14 : elapsedDays (T + 14 * 86400) T = 14 := by
    unfold elapsedDays; rw [add_sub_cancel_left]; decide
  have e48 : elapsedDays (T + 48 * 86400) T = 48 := by
    unfold elapsedDays; rw [add_sub_cancel_left]; decide
  have e49 : elapsedDays (T + 49 * 86400) T = 49 := by
    unfold elapsedDays; rw [add_sub_cancel_left]; decide
  have e50 : elapsedDays (T + 50 * 86400) T = 50 := by
    unfold elapsedDays; rw [add_sub_cancel_left]; decide
  have e10000 : elapsedDays (T + 10000 * 86400) T = 10000 := by
    unfold elapsedDays; rw [add_sub_cancel_left]; decide
  have u14 : toU32 14 = 14 := by decide
  have u49 : toU32 (14 + 35) = 49 := by decide
  unfold getCurrentGrowthStage
  simp only [hactive, hfind, hstart, hs, hg, e13, e14, e48, e49, e50, e10000, u14, u49]
  simp

/-- Witness for C1 (amended): the default catalog with a tomato cycle started at
1700000000. -/
theorem stage_boundaries_14_35_21_witness :
    getCurrentGrowthStage (defaultManager ⟨"tomatoes", 1700000000, true⟩)
        (1700000000 + 13 * 86400) = "Seedling" ∧
    getCurrentGrowthStage (defaultManager ⟨"tomatoes", 1700000000, true⟩)
        (1700000000 + 14 * 86400) = "Growing" ∧
    getCurrentGrowthStage (defaultManager ⟨"tomatoes", 1700000000, true⟩)
        (1700000000 + 48 * 86400) = "Growing" ∧
    getCurrentGrowthStage (defaultManager ⟨"tomatoes", 1700000000, true⟩)
        (1700000000 + 49 * 86400) = "Harvesting" ∧
    getCurrentGrowthStage (defaultManager ⟨"tomatoes", 1700000000, true⟩)
        (1700000000 + 50 * 86400) = "Harvesting" ∧
    getCurrentGrowthStage (defaultManager ⟨"tomatoes", 1700000000, true⟩)
        (1700000000 + 10000 * 86400) = "Harvesting" :=
  stage_boundaries_14_35_21 (defaultManager ⟨"tomatoes", 1700000000, true⟩) tomatoes
    1700000000 rfl rfl rfl rfl rfl rfl

/-- C2. For an inactive cycle `getCurrentGrowthStage` answers "None" at every time. For an
active cycle on a stored profile with non-negative `int` durations and a time `now` at or
after the start (both 32-bit epoch seconds), with `E = (now - start) / 86400`: the answer is
Seedling iff `E < seedling`, Growing iff `seedling ≤ E < seedling + growing`, and Harvesting
iff neither, that is iff `seedling + growing ≤ E`. -/
theorem stage_function (m : GrowthManager) (now : Int) :
    (m.activeCycle.active = false → getCurrentGrowthStage m now = "None") ∧
    (∀ p : GrowthProfile, m.activeCycle.active = true →
      findProfileById m m.activeCycle.profileId = some p →
      0 ≤ m.activeCycle.startTime → m.activeCycle.startTime ≤ now → now < 4294967296 →
      0 ≤ p.seedling.duration → p.seedling.duration < 2147483648 →
      0 ≤ p.growing.duration → p.growing.duration < 2147483648 →
      (getCurrentGrowthStage m now = "Seedling" ↔
        (now - m.activeCycle.startTime) / 86400 < p.seedling.duration) ∧
      (getCurrentGrowthStage m now = "Growing" ↔
        p.seedling.duration ≤ (now - m.activeCycle.startTime) / 86400 ∧
        (now - m.activeCycle.startTime) / 86400 <
          p.seedling.duration + p.growing.duration) ∧
      (getCurrentGrowthStage m now = "Harvesting" ↔
        p.seedling.duration + p.growing.duration ≤
          (now - m.activeCycle.startTime) / 86400)) := by
  refine ⟨fun h => by simp [getCurrentGrowthStage, h], ?_⟩
  intro p hactive hfind hs0 hle hnow hsd0 hsd1 hgd0 hgd1
  have hE : (elapsedDays now m.activeCycle.startTime : Int) =
      (now - m.activeCycle.startTime) / 86400 := by
    unfold elapsedDays
    rw [toU32_of_range _ (by omega) (by omega)]
    omega
  have hS : (toU32 p.seedling.duration : Int) = p.seedling.duration := by
    rw [toU32_of_range _ hsd0 (by omega)]; omega
  have hG : (toU32 (p.seedling.duration + p.growing.duration) : Int) =
      p.seedling.duration + p.growing.duration := by
    rw [toU32_of_range _ (by omega) (by omega)]; omega
  obtain ⟨d1, d2, d3, d4, d5, d6⟩ := stage_names_distinct
  unfold getCurrentGrowthStage
  simp only [hactive, hfind, Bool.not_true, Bool.false_eq_true, if_false]
  by_cases c1 : elapsedDays now m.activeCycle.startTime < toU32 p.seedling.duration
  · rw [if_pos c1]
    refine ⟨⟨fun _ => by omega, fun _ => rfl⟩, ⟨fun h => absurd h d1, fun h => by omega⟩,
      ⟨fun h => absurd h d2, fun h => by omega⟩⟩
  · by_cases c2 : elapsedDays now m.activeCycle.startTime <
        toU32 (p.seedling.duration + p.growing.duration)
    · rw [if_neg c1, if_pos c2]
      refine ⟨⟨fun h => absurd h d4, fun h => by omega⟩, ⟨fun _ => by omega, fun _ => rfl⟩,
        ⟨fun h => absurd h d3, fun h => by omega⟩⟩
    · rw [if_neg c1, if_neg c2]
      refine ⟨⟨fun h => absurd h d5, fun h => by omega⟩, ⟨fun h => absurd h d6, fun h => by omega⟩,
        ⟨fun _ => by omega, fun _ => rfl⟩⟩

/-- Witness for C2: a stopped default catalog, and a tomato cycle 20 days after its
start, which is Growing and neither Seedling nor Harvesting. -/
theorem stage_function_witness :
    getCurrentGrowthStage (defaultManager ⟨"tomatoes", 1700000000, false⟩) 1701728000 = "None" ∧
    (getCurrentGrowthStage (defaultManager ⟨"tomatoes", 1700000000, true⟩) 1701728000
        = "Growing" ↔
      (14 : Int) ≤ (1701728000 - 1700000000) / 86400 ∧
      ((1701728000 - 1700000000) / 86400 : Int) < 14 + 35) :=
  ⟨(stage_function (defaultManager ⟨"tomatoes", 1700000000, false⟩) 1701728000).1 rfl,
   ((stage_function (defaultManager ⟨"tomatoes", 1700000000, true⟩) 1701728000).2 tomatoes
      rfl rfl (by decide) (by decide) (by decide) (by decide) (by decide) (by decide)
      (by decide)).2.1⟩

/-! ## Profile catalog: saving at capacity -/

/-- C3 (failing input). The catalog holds `MAX_PROFILES` = 10 profiles and the saved
profile carries the stored id "tomatoes" (slot 0): `addProfile` returns `false` at the
capacity test before it looks for the id, and slot 0 keeps the old name. -/
theorem addProfile_existing_id_at_capacity_fails :
    fullManager.profileCount = MAX_PROFILES ∧
    findProfileIndex fullManager "tomatoes" = some 0 ∧
    (addProfile fullManager { tomatoes with name := "Tomatoes v2" }).1 = false ∧
    (addProfile fullManager { tomatoes with name := "Tomatoes v2" }).2 = fullManager ∧
    ((addProfile fullManager { tomatoes with name := "Tomatoes v2" }).2.profiles[0]?).map
      GrowthProfile.name = some "Tomatoes" :=
  ⟨rfl, rfl, rfl, rfl, rfl⟩

theorem scanProfiles_some (ps : List GrowthProfile) (id : String) (n : Nat) :
    ∀ i j, scanProfiles ps id i n = some j →
      i ≤ j ∧ j < i + n ∧ ∃ q, ps[j]? = some q ∧ q.id = id := by
  induction n with
  | zero => intro i j h; simp [scanProfiles] at h
  | succ n ih =>
    intro i j h
    unfold scanProfiles at h
    cases hq : ps[i]? with
    | none =>
      rw [hq] at h
      obtain ⟨h1, h2, h3⟩ := ih (i + 1) j h
      exact ⟨by omega, by omega, h3⟩
    | some q =>
      rw [hq] at h
      by_cases hid : q.id = id
      · simp only [hid, if_true, Option.some.injEq] at h
        subst h
        exact ⟨le_refl _, by omega, q, hq, hid⟩
      · simp only [hid, if_false] at h
        obtain ⟨h1, h2, h3⟩ := ih (i + 1) j h
        exact ⟨by omega, by omega, h3⟩

/-- Below capacity the save of a stored id does what C3 says: it succeeds, the matching
slot holds the new profile, every other slot, the count and the cycle are unchanged. -/
theorem addProfile_existing_id_below_capacity (m : GrowthManager) (p : GrowthProfile)
    (i : Nat) (hcap : m.profileCount < MAX_PROFILES)
    (hfind : findProfileIndex m p.id = some i) :
    (addProfile m p).1 = true ∧
    (addProfile m p).2.profileCount = m.profileCount ∧
    (addProfile m p).2.activeCycle = m.activeCycle ∧
    (addProfile m p).2.profiles[i]? = some p ∧
    (∀ j, j ≠ i → (addProfile m p).2.profiles[j]? = m.profiles[j]?) := by
  obtain ⟨-, -, q, hq, -⟩ := scanProfiles_some m.profiles p.id m.profileCount 0 i hfind
  have hlen : i < m.profiles.length := by
    rcases Nat.lt_or_ge i m.profiles.length with h | h
    · exact h
    · rw [List.getElem?_eq_none h] at hq
      exact absurd hq (by simp)
  unfold addProfile
  rw [if_neg (by omega), hfind]
  refine ⟨rfl, rfl, rfl, ?_, ?_⟩
  · simp [hlen]
  · intro j hj
    simp [List.getElem?_set, Ne.symm hj]

/-- C4. When the catalog already holds `MAX_PROFILES` profiles and the id of `p` matches
no stored entry, `addProfile` returns `false` and the manager (count, every slot, cycle)
is exactly what it was. -/
theorem addProfile_new_id_at_capacity (m : GrowthManager) (p : GrowthProfile)
    (hfull : m.profileCount = MAX_PROFILES)
    (hnew : findProfileById m p.id = none) :
    (addProfile m p).1 = false ∧ (addProfile m p).2 = m := by
  unfold addProfile
  rw [if_pos (by omega)]
  exact ⟨rfl, rfl⟩

/-- Witness for C4: the full catalog and a profile with the new id "dill". -/
theorem addProfile_new_id_at_capacity_witness :
    fullManager.profileCount = MAX_PROFILES ∧
    findProfileById fullManager "dill" = none ∧
    (addProfile fullManager { blankProfile with id := "dill" }).1 = false ∧
    (addProfile fullManager { blankProfile with id := "dill" }).2 = fullManager :=
  ⟨rfl, rfl, addProfile_new_id_at_capacity fullManager { blankProfile with id := "dill" }
    rfl rfl⟩

/-! ## The control tick, section by section -/

theorem tick_reaches_stage (gm : GrowthManager) (inp : TickInput) (g : Globals)
    (stage : GrowthStage) (hactive : gm.activeCycle.active = true)
    (htime : 1000000000 ≤ inp.now)
    (hstage : getCurrentStageSettings gm inp.now = some stage) :
    updateRelaysBasedOnCycle gm inp g =
      controlWithStage stage (getCurrentGrowthStage gm inp.now) inp g := by
  unfold updateRelaysBasedOnCycle
  rw [hstage]
  simp [hactive, not_lt.mpr htime]

theorem tick_skips_or_reaches (gm : GrowthManager) (inp : TickInput) (g : Globals) :
    updateRelaysBasedOnCycle gm inp g = (g, []) ∨
    ∃ stage, updateRelaysBasedOnCycle gm inp g =
      controlWithStage stage (getCurrentGrowthStage gm inp.now) inp g := by
  unfold updateRelaysBasedOnCycle
  split_ifs
  · exact Or.inl rfl
  · exact Or.inl rfl
  · cases h : getCurrentStageSettings gm inp.now with
    | none => exact Or.inl rfl
    | some stage => exact Or.inr ⟨stage, rfl⟩

theorem lightControl_keeps (stage : GrowthStage) (inp : TickInput) (g : Globals) :
    (lightControl stage inp g).1.relayController.pump = g.relayController.pump ∧
    (lightControl stage inp g).1.lastWateringTime = g.lastWateringTime ∧
    (lightControl stage inp g).1.pumpOnTime = g.pumpOnTime ∧
    (lightControl stage inp g).1.firstRun = g.firstRun := by
  simp only [lightControl]
  split_ifs <;> simp [RelayController.setState, RELAY_LIGHTS]

theorem lightControl_actions (stage : GrowthStage) (inp : TickInput) (g : Globals)
    (a : Action) (ha : a ∈ (lightControl stage inp g).2) :
    (∃ b, a = Action.setState RELAY_LIGHTS b) ∨ (∃ b, a = Action.publishLightsState b) := by
  simp only [lightControl] at ha
  by_cases hc : (g.relayController.getState RELAY_LIGHTS !=
      shouldLightsBeOn stage inp.currentHour) = true
  · rw [if_pos hc] at ha
    cases hconn : inp.connected <;> simp [publishIf, hconn] at ha
    · exact Or.inl ⟨_, ha⟩
    · rcases ha with h | h
      · exact Or.inl ⟨_, h⟩
      · exact Or.inr ⟨_, h⟩
  · rw [if_neg hc] at ha
    simp at ha

theorem stagePhAlert_actions (stage : GrowthStage) (name : String) (inp : TickInput)
    (a : Action) (ha : a ∈ stagePhAlert stage name inp) :
    ∃ msg, a = Action.publishAlert msg := by
  unfold stagePhAlert at ha
  cases hph : inp.phValue with
  | none => simp [hph] at ha
  | some v =>
    simp only [hph] at ha
    by_cases hc : ((decide (v < stage.phMin) || decide (v > stage.phMax)) && inp.connected) = true
    · rw [if_pos hc] at ha
      exact ⟨_, List.mem_singleton.mp ha⟩
    · rw [if_neg hc] at ha
      simp at ha

theorem control_pump_actions (stage : GrowthStage) (name : String) (inp : TickInput)
    (g : Globals) (a : Action) (hp : isPumpAction a = true) :
    a ∈ (controlWithStage stage name inp g).2 ↔
      (a ∈ (wateringStart stage inp (lightControl stage inp g).1).2 ∨
       a ∈ (pumpDurationControl stage inp
              (wateringStart stage inp (lightControl stage inp g).1).1).2) := by
  simp only [controlWithStage, List.mem_append]
  constructor
  · rintro (((h | h) | h) | h)
    · rcases lightControl_actions stage inp g a h with ⟨b, hb⟩ | ⟨b, hb⟩ <;>
        simp [hb, isPumpAction, RELAY_PUMP, RELAY_LIGHTS] at hp
    · exact Or.inl h
    · exact Or.inr h
    · obtain ⟨msg, hm⟩ := stagePhAlert_actions stage name inp a h
      simp [hm, isPumpAction] at hp
  · rintro (h | h)
    · exact Or.inl (Or.inl (Or.inr h))
    · exact Or.inl (Or.inr h)

theorem wateringStart_first (stage : GrowthStage) (inp : TickInput) (g : Globals)
    (h : g.firstRun = true) :
    wateringStart stage inp g =
      ({ g with relayController := g.relayController.setState RELAY_PUMP true,
                lastWateringTime := inp.now, firstRun := false },
        Action.setState RELAY_PUMP true ::
          publishIf inp.connected (Action.publishPumpState true)) := by
  simp [wateringStart, h]

theorem wateringStart_due (stage : GrowthStage) (inp : TickInput) (g : Globals)
    (h : g.firstRun = false)
    (hc : g.lastWateringTime > 0 ∧
      toU32 (inp.now - g.lastWateringTime) ≥ toU32 (stage.waterInterval * 60)) :
    wateringStart stage inp g =
      ({ g with relayController := g.relayController.setState RELAY_PUMP true,
                lastWateringTime := inp.now },
        Action.setState RELAY_PUMP true ::
          publishIf inp.connected (Action.publishPumpState true)) := by
  simp only [wateringStart, h]
  rw [if_neg (by simp), if_pos hc]

theorem wateringStart_idle (stage : GrowthStage) (inp : TickInput) (g : Globals)
    (h : g.firstRun = false)
    (hc : ¬ (g.lastWateringTime > 0 ∧
      toU32 (inp.now - g.lastWateringTime) ≥ toU32 (stage.waterInterval * 60))) :
    wateringStart stage inp g = (g, []) := by
  simp only [wateringStart, h]
  rw [if_neg (by simp), if_neg hc]

theorem pumpDuration_actions (stage : GrowthStage) (inp : TickInput) (g : Globals)
    (a : Action) (ha : a ∈ (pumpDurationControl stage inp g).2) :
    (a = Action.setState RELAY_PUMP false ∨ a = Action.publishPumpState false) ∧
    g.relayController.pump = true ∧
    (pumpDurationControl stage inp g).1.relayController.pump = false := by
  simp only [pumpDurationControl] at ha ⊢
  by_cases h1 : g.relayController.getState RELAY_PUMP = true
  · have hp : g.relayController.pump = true := h1
    by_cases h2 : g.pumpOnTime = 0
    · simp [h1, h2] at ha
    · by_cases h3 : toU32 (wrapLong (inp.now - g.pumpOnTime)) ≥ toU32 (stage.waterDuration * 60)
      · rw [if_pos h1, if_neg h2, if_pos h3] at ha ⊢
        refine ⟨?_, hp, rfl⟩
        cases hconn : inp.connected <;> simp [publishIf, hconn] at ha
        · exact Or.inl ha
        · exact ha
      · rw [if_pos h1, if_neg h2, if_neg h3] at ha
        simp at ha
  · rw [if_neg h1] at ha
    split_ifs at ha <;> simp at ha

theorem pumpDuration_keeps (stage : GrowthStage) (inp : TickInput) (g : Globals) :
    (pumpDurationControl stage inp g).1.lastWateringTime = g.lastWateringTime ∧
    (pumpDurationControl stage inp g).1.firstRun = g.firstRun := by
  simp only [pumpDurationControl]
  split_ifs <;> simp

theorem wateringStart_cases (stage : GrowthStage) (inp : TickInput) (g : Globals) :
    wateringStart stage inp g = (g, []) ∨
    ((wateringStart stage inp g).2 = Action.setState RELAY_PUMP true ::
        publishIf inp.connected (Action.publishPumpState true) ∧
     (wateringStart stage inp g).1.relayController.pump = true ∧
     (wateringStart stage inp g).1.lastWateringTime = inp.now ∧
     (wateringStart stage inp g).1.pumpOnTime = g.pumpOnTime ∧
     (wateringStart stage inp g).1.firstRun = false ∧
     (g.firstRun = true ∨ (g.lastWateringTime > 0 ∧
        toU32 (inp.now - g.lastWateringTime) ≥ toU32 (stage.waterInterval * 60)))) := by
  cases hf : g.firstRun with
  | true =>
    right
    rw [wateringStart_first stage inp g hf]
    exact ⟨rfl, rfl, rfl, rfl, rfl, Or.inl rfl⟩
  | false =>
    by_cases hc : g.lastWateringTime > 0 ∧
        toU32 (inp.now - g.lastWateringTime) ≥ toU32 (stage.waterInterval * 60)
    · right
      rw [wateringStart_due stage inp g hf hc]
      exact ⟨rfl, rfl, rfl, rfl, hf, Or.inr hc⟩
    · left
      exact wateringStart_idle stage inp g hf hc

theorem publishIf_mem (c : Bool) (a b : Action) (h : a ∈ publishIf c b) : a = b := by
  cases c <;> simp [publishIf] at h
  exact h

/-! ## Irrigation: when a watering starts -/

/-- C5 (counterexample). Profile "quick" (interval 1 min, duration 5 min): the bootstrap
tick at 1700000100 leaves the pump on; the tick 60 s later finds the pump on, the interval
elapsed, and starts a watering again: it writes the pump relay on and moves
`lastWateringTime` to now. -/
theorem watering_restarts_while_pump_on :
    (updateRelaysBasedOnCycle quickManager (noonTick 1700000100)
      Globals.initial).1.firstRun = false ∧
    (updateRelaysBasedOnCycle quickManager (noonTick 1700000100)
      Globals.initial).1.relayController.pump = true ∧
    Action.setState RELAY_PUMP true ∈
      (updateRelaysBasedOnCycle quickManager (noonTick 1700000160)
        (updateRelaysBasedOnCycle quickManager (noonTick 1700000100) Globals.initial).1).2 ∧
    (updateRelaysBasedOnCycle quickManager (noonTick 1700000160)
      (updateRelaysBasedOnCycle quickManager (noonTick 1700000100)
        Globals.initial).1).1.lastWateringTime = 1700000160 := by
  decide

/-- C5 (amended). On a tick after the bootstrap tick that reaches the irrigation logic
(32-bit times, `lastWateringTime` not in the future, interval in `int` range), the
scheduler starts a watering, that is writes the pump relay on and sets
`lastWateringTime = now`, if and only if `lastWateringTime` is set and
`now - lastWateringTime ≥ waterInterval * 60`; the pump state at the start of the tick
plays no part. -/
theorem watering_start_guard (gm : GrowthManager) (inp : TickInput) (g : Globals)
    (stage : GrowthStage)
    (hactive : gm.activeCycle.active = true)
    (htime : 1000000000 ≤ inp.now) (hnow : inp.now < 2147483648)
    (hstage : getCurrentStageSettings gm inp.now = some stage)
    (hfirst : g.firstRun = false)
    (hlast0 : 0 ≤ g.lastWateringTime) (hlast : g.lastWateringTime ≤ inp.now)
    (hiv0 : 0 ≤ stage.waterInterval) (hiv1 : stage.waterInterval * 60 < 2147483648) :
    (Action.setState RELAY_PUMP true ∈ (updateRelaysBasedOnCycle gm inp g).2 ↔
      (g.lastWateringTime ≠ 0 ∧ inp.now - g.lastWateringTime ≥ stage.waterInterval * 60)) ∧
    (Action.setState RELAY_PUMP true ∈ (updateRelaysBasedOnCycle gm inp g).2 →
      (updateRelaysBasedOnCycle gm inp g).1.lastWateringTime = inp.now) ∧
    (Action.setState RELAY_PUMP true ∉ (updateRelaysBasedOnCycle gm inp g).2 →
      (updateRelaysBasedOnCycle gm inp g).1.lastWateringTime = g.lastWateringTime) := by
  rw [tick_reaches_stage gm inp g stage hactive htime hstage]
  obtain ⟨-, hl2, -, hl4⟩ := lightControl_keeps stage inp g
  have e1 : toU32 (inp.now - g.lastWateringTime) = (inp.now - g.lastWateringTime).toNat :=
    toU32_of_range _ (by omega) (by omega)
  have e2 : toU32 (stage.waterInterval * 60) = (stage.waterInterval * 60).toNat :=
    toU32_of_range _ (by omega) (by omega)
  have hmem := control_pump_actions stage (getCurrentGrowthStage gm inp.now) inp g
    (Action.setState RELAY_PUMP true) rfl
  have hlastEq : (controlWithStage stage (getCurrentGrowthStage gm inp.now) inp g).1.lastWateringTime
      = (wateringStart stage inp (lightControl stage inp g).1).1.lastWateringTime :=
    (pumpDuration_keeps stage inp _).1
  have hoff : Action.setState RELAY_PUMP true ∉ (pumpDurationControl stage inp
      (wateringStart stage inp (lightControl stage inp g).1).1).2 := by
    intro h
    rcases (pumpDuration_actions stage inp _ _ h).1 with h1 | h1 <;> simp at h1
  by_cases hc : (lightControl stage inp g).1.lastWateringTime > 0 ∧
      toU32 (inp.now - (lightControl stage inp g).1.lastWateringTime) ≥
        toU32 (stage.waterInterval * 60)
  · have hw := wateringStart_due stage inp (lightControl stage inp g).1 (hl4.trans hfirst) hc
    rw [hl2, e1, e2] at hc
    have hin : Action.setState RELAY_PUMP true ∈
        (controlWithStage stage (getCurrentGrowthStage gm inp.now) inp g).2 := by
      rw [hmem, hw]; simp
    refine ⟨⟨fun _ => ⟨by omega, by omega⟩, fun _ => hin⟩, fun _ => ?_, fun h => absurd hin h⟩
    rw [hlastEq, hw]
  · have hw := wateringStart_idle stage inp (lightControl stage inp g).1 (hl4.trans hfirst) hc
    rw [hl2, e1, e2] at hc
    have hout : Action.setState RELAY_PUMP true ∉
        (controlWithStage stage (getCurrentGrowthStage gm inp.now) inp g).2 := by
      rw [hmem, hw]
      simp only [List.not_mem_nil, false_or]
      rw [hw] at hoff
      exact hoff
    refine ⟨⟨fun h => absurd h hout, fun h => absurd ⟨by omega, by omega⟩ hc⟩,
      fun h => absurd h hout, fun _ => ?_⟩
    rw [hlastEq, hw, hl2]

/-- Witness for C5 (amended): the tomato cycle, bootstrap at 1700000100, pump since
switched off; at 1700003700 the 60 minute interval has elapsed and a watering starts. -/
theorem watering_start_guard_witness :
    Action.setState RELAY_PUMP true ∈
      (updateRelaysBasedOnCycle (defaultManager ⟨"tomatoes", 1700000000, true⟩)
        (noonTick 1700003700)
        ⟨⟨false, true, false, false⟩, 1700000100, 0, false⟩).2 ↔
      ((1700000100 : Int) ≠ 0 ∧ (1700003700 : Int) - 1700000100 ≥ 60 * 60) :=
  (watering_start_guard (defaultManager ⟨"tomatoes", 1700000000, true⟩)
    (noonTick 1700003700) ⟨⟨false, true, false, false⟩, 1700000100, 0, false⟩
    tomatoes.seedling rfl (by decide) (by decide) rfl rfl (by decide) (by decide)
    (by decide) (by decide)).1

/-! ## Irrigation: pump events -/

/-- C6 (counterexample). Profile "quick": the tick at 1700000260, 60 s after the bootstrap
tick, begins with the pump energized and ends with it energized, and still publishes a
pump-ON event. -/
theorem pump_on_event_without_change :
    (updateRelaysBasedOnCycle quickManager (noonTick 1700000200)
      Globals.initial).1.relayController.pump = true ∧
    Action.publishPumpState true ∈
      (updateRelaysBasedOnCycle quickManager (noonTick 1700000260)
        (updateRelaysBasedOnCycle quickManager (noonTick 1700000200) Globals.initial).1).2 ∧
    (updateRelaysBasedOnCycle quickManager (noonTick 1700000260)
      (updateRelaysBasedOnCycle quickManager (noonTick 1700000200)
        Globals.initial).1).1.relayController.pump = true := by
  decide

/-- C6 (amended). For every tick: a pump-ON event is emitted only by a tick that starts a
watering (writes the pump relay on), whatever the pump state was; a pump-OFF event is
emitted only if the pump was energized when the tick began or was energized by the same
tick, and the tick then ends with the pump de-energized; a tick that starts no watering
and leaves the energized value unchanged emits no pump event. -/
theorem pump_events_follow_relay_writes (gm : GrowthManager) (inp : TickInput)
    (g : Globals) :
    (Action.publishPumpState true ∈ (updateRelaysBasedOnCycle gm inp g).2 →
      Action.setState RELAY_PUMP true ∈ (updateRelaysBasedOnCycle gm inp g).2) ∧
    (Action.publishPumpState false ∈ (updateRelaysBasedOnCycle gm inp g).2 →
      (g.relayController.pump = true ∨
        Action.setState RELAY_PUMP true ∈ (updateRelaysBasedOnCycle gm inp g).2) ∧
      (updateRelaysBasedOnCycle gm inp g).1.relayController.pump = false) ∧
    (Action.setState RELAY_PUMP true ∉ (updateRelaysBasedOnCycle gm inp g).2 →
      (updateRelaysBasedOnCycle gm inp g).1.relayController.pump = g.relayController.pump →
      ∀ b, Action.publishPumpState b ∉ (updateRelaysBasedOnCycle gm inp g).2) := by
  have key : (Action.publishPumpState true ∈ (updateRelaysBasedOnCycle gm inp g).2 →
      Action.setState RELAY_PUMP true ∈ (updateRelaysBasedOnCycle gm inp g).2) ∧
    (Action.publishPumpState false ∈ (updateRelaysBasedOnCycle gm inp g).2 →
      (g.relayController.pump = true ∨
        Action.setState RELAY_PUMP true ∈ (updateRelaysBasedOnCycle gm inp g).2) ∧
      (updateRelaysBasedOnCycle gm inp g).1.relayController.pump = false) := by
    rcases tick_skips_or_reaches gm inp g with h | ⟨stage, h⟩
    · rw [h]; simp
    · rw [h]
      have mOn := control_pump_actions stage (getCurrentGrowthStage gm inp.now) inp g
        (Action.publishPumpState true) rfl
      have mOff := control_pump_actions stage (getCurrentGrowthStage gm inp.now) inp g
        (Action.publishPumpState false) rfl
      have mSet := control_pump_actions stage (getCurrentGrowthStage gm inp.now) inp g
        (Action.setState RELAY_PUMP true) rfl
      obtain ⟨hl1, -, -, -⟩ := lightControl_keeps stage inp g
      have hcases := wateringStart_cases stage inp (lightControl stage inp g).1
      constructor
      · intro hon
        rw [mOn] at hon
        rw [mSet]
        rcases hon with hon | hon
        · rcases hcases with hw | ⟨hw, -⟩
          · rw [hw] at hon; simp at hon
          · left; rw [hw]; simp
        · rcases (pumpDuration_actions stage inp _ _ hon).1 with h1 | h1 <;> simp at h1
      · intro hoff
        rw [mOff] at hoff
        have hd : Action.publishPumpState false ∈ (pumpDurationControl stage inp
            (wateringStart stage inp (lightControl stage inp g).1).1).2 := by
          rcases hoff with hoff | hoff
          · rcases hcases with hw | ⟨hw, -⟩
            · rw [hw] at hoff; simp at hoff
            · rw [hw] at hoff
              simp only [List.mem_cons] at hoff
              rcases hoff with h1 | h1
              · simp at h1
              · have := publishIf_mem _ _ _ h1
                simp at this
          · exact hoff
        obtain ⟨-, hwon, hdoff⟩ := pumpDuration_actions stage inp _ _ hd
        refine ⟨?_, hdoff⟩
        rcases hcases with hw | ⟨hw, -⟩
        · left
          rw [hw] at hwon
          rw [← hl1]; exact hwon
        · right
          rw [mSet]; left; rw [hw]; simp
  refine ⟨key.1, key.2, ?_⟩
  intro hno hsame b hb
  cases b with
  | true => exact hno (key.1 hb)
  | false =>
    obtain ⟨h1, h2⟩ := key.2 hb
    rcases h1 with h1 | h1
    · rw [hsame, h1] at h2
      exact absurd h2 (by decide)
    · exact hno h1

/-- Witness for C6 (amended): the bootstrap tick of the tomato cycle publishes pump-ON
and writes the pump relay on. -/
theorem pump_events_follow_relay_writes_witness :
    Action.publishPumpState true ∈
      (updateRelaysBasedOnCycle (defaultManager ⟨"tomatoes", 1700000000, true⟩)
        (noonTick 1700000100) Globals.initial).2 ∧
    Action.setState RELAY_PUMP true ∈
      (updateRelaysBasedOnCycle (defaultManager ⟨"tomatoes", 1700000000, true⟩)
        (noonTick 1700000100) Globals.initial).2 :=
  ⟨by decide,
   (pump_events_follow_relay_writes (defaultManager ⟨"tomatoes", 1700000000, true⟩)
      (noonTick 1700000100) Globals.initial).1 (by decide)⟩

/-! ## Pump regimes of a tick -/

theorem pumpEvents_append (xs ys : List Action) :
    pumpEvents (xs ++ ys) = pumpEvents xs ++ pumpEvents ys := by
  simp [pumpEvents]

theorem pumpEvents_light (stage : GrowthStage) (inp : TickInput) (g : Globals) :
    pumpEvents (lightControl stage inp g).2 = [] := by
  simp only [pumpEvents, List.filter_eq_nil_iff]
  intro a ha
  rcases lightControl_actions stage inp g a ha with ⟨b, hb⟩ | ⟨b, hb⟩ <;> simp [hb]

theorem pumpEvents_alert (stage : GrowthStage) (name : String) (inp : TickInput) :
    pumpEvents (stagePhAlert stage name inp) = [] := by
  simp only [pumpEvents, List.filter_eq_nil_iff]
  intro a ha
  obtain ⟨msg, hm⟩ := stagePhAlert_actions stage name inp a ha
  simp [hm]

theorem pumpEvents_control (stage : GrowthStage) (name : String) (inp : TickInput)
    (g : Globals) :
    pumpEvents (controlWithStage stage name inp g).2 =
      pumpEvents (wateringStart stage inp (lightControl stage inp g).1).2 ++
      pumpEvents (pumpDurationControl stage inp
        (wateringStart stage inp (lightControl stage inp g).1).1).2 := by
  simp only [controlWithStage, pumpEvents_append, pumpEvents_light, pumpEvents_alert,
    List.nil_append, List.append_nil]

theorem pumpEvents_nil : pumpEvents [] = [] := rfl

theorem pumpEvents_setState (n : Nat) (b : Bool) (xs : List Action) :
    pumpEvents (Action.setState n b :: xs) = pumpEvents xs := by
  simp [pumpEvents]

theorem pumpEvents_publishIf (c b : Bool) :
    pumpEvents (publishIf c (Action.publishPumpState b)) =
      publishIf c (Action.publishPumpState b) := by
  cases c <;> simp [pumpEvents, publishIf]

/-- Bootstrap regime: `firstRun` set and the duration timer idle. -/
theorem control_bootstrap (stage : GrowthStage) (name : String) (inp : TickInput)
    (g : Globals) (hfirst : g.firstRun = true) (hon : g.pumpOnTime = 0) :
    (controlWithStage stage name inp g).1.relayController.pump = true ∧
    (controlWithStage stage name inp g).1.lastWateringTime = inp.now ∧
    (controlWithStage stage name inp g).1.pumpOnTime = inp.now ∧
    (controlWithStage stage name inp g).1.firstRun = false ∧
    pumpEvents (controlWithStage stage name inp g).2 =
      publishIf inp.connected (Action.publishPumpState true) := by
  obtain ⟨hl1, hl2, hl3, hl4⟩ := lightControl_keeps stage inp g
  have hw := wateringStart_first stage inp (lightControl stage inp g).1 (hl4.trans hfirst)
  rw [pumpEvents_control]
  simp only [controlWithStage, hw]
  simp [pumpDurationControl, RelayController.getState, RelayController.setState, RELAY_PUMP,
    hl3, hon, pumpEvents_setState, pumpEvents_publishIf, pumpEvents_nil]

/-- Start regime after the bootstrap: the interval has elapsed and the duration timer is
idle. -/
theorem control_due (stage : GrowthStage) (name : String) (inp : TickInput)
    (g : Globals) (hfirst : g.firstRun = false) (hon : g.pumpOnTime = 0)
    (hdue : g.lastWateringTime > 0 ∧
      toU32 (inp.now - g.lastWateringTime) ≥ toU32 (stage.waterInterval * 60)) :
    (controlWithStage stage name inp g).1.relayController.pump = true ∧
    (controlWithStage stage name inp g).1.lastWateringTime = inp.now ∧
    (controlWithStage stage name inp g).1.pumpOnTime = inp.now ∧
    (controlWithStage stage name inp g).1.firstRun = false ∧
    pumpEvents (controlWithStage stage name inp g).2 =
      publishIf inp.connected (Action.publishPumpState true) := by
  obtain ⟨hl1, hl2, hl3, hl4⟩ := lightControl_keeps stage inp g
  have hw := wateringStart_due stage inp (lightControl stage inp g).1 (hl4.trans hfirst)
    (by rw [hl2]; exact hdue)
  rw [pumpEvents_control]
  simp only [controlWithStage, hw]
  simp [pumpDurationControl, RelayController.getState, RelayController.setState, RELAY_PUMP,
    hl3, hl4, hfirst, hon, pumpEvents_setState, pumpEvents_publishIf, pumpEvents_nil]

/-- Quiet regime: no watering is due, and the pump is off with an idle timer or on with
a running, unexpired timer. Nothing about the pump changes. -/
theorem control_quiet (stage : GrowthStage) (name : String) (inp : TickInput)
    (g : Globals) (hfirst : g.firstRun = false)
    (hnot : ¬ (g.lastWateringTime > 0 ∧
      toU32 (inp.now - g.lastWateringTime) ≥ toU32 (stage.waterInterval * 60)))
    (hpump : (g.relayController.pump = false ∧ g.pumpOnTime = 0) ∨
      (g.relayController.pump = true ∧ g.pumpOnTime ≠ 0 ∧
        ¬ toU32 (wrapLong (inp.now - g.pumpOnTime)) ≥ toU32 (stage.waterDuration * 60))) :
    (controlWithStage stage name inp g).1.relayController.pump = g.relayController.pump ∧
    (controlWithStage stage name inp g).1.lastWateringTime = g.lastWateringTime ∧
    (controlWithStage stage name inp g).1.pumpOnTime = g.pumpOnTime ∧
    (controlWithStage stage name inp g).1.firstRun = false ∧
    pumpEvents (controlWithStage stage name inp g).2 = [] := by
  obtain ⟨hl1, hl2, hl3, hl4⟩ := lightControl_keeps stage inp g
  have hw := wateringStart_idle stage inp (lightControl stage inp g).1 (hl4.trans hfirst)
    (by rw [hl2]; exact hnot)
  rw [pumpEvents_control]
  simp only [controlWithStage, hw]
  rcases hpump with ⟨h1, h2⟩ | ⟨h1, h2, h3⟩
  · simp [pumpDurationControl, RelayController.getState, RELAY_PUMP,
      hl1, hl2, hl3, hl4, hfirst, h1, h2, pumpEvents_nil]
  · simp only [pumpDurationControl, RelayController.getState, RELAY_PUMP, hl1, hl3, h1]
    rw [if_pos trivial, if_neg h2, if_neg h3]
    simp [hl1, hl2, hl3, hl4, hfirst, h1, pumpEvents_nil]

/-- Stop regime: no watering is due and the running timer has reached the duration. -/
theorem control_expire (stage : GrowthStage) (name : String) (inp : TickInput)
    (g : Globals) (hfirst : g.firstRun = false)
    (hnot : ¬ (g.lastWateringTime > 0 ∧
      toU32 (inp.now - g.lastWateringTime) ≥ toU32 (stage.waterInterval * 60)))
    (hpump : g.relayController.pump = true) (hon : g.pumpOnTime ≠ 0)
    (hexp : toU32 (wrapLong (inp.now - g.pumpOnTime)) ≥ toU32 (stage.waterDuration * 60)) :
    (controlWithStage stage name inp g).1.relayController.pump = false ∧
    (controlWithStage stage name inp g).1.lastWateringTime = g.lastWateringTime ∧
    (controlWithStage stage name inp g).1.pumpOnTime = 0 ∧
    (controlWithStage stage name inp g).1.firstRun = false ∧
    pumpEvents (controlWithStage stage name inp g).2 =
      publishIf inp.connected (Action.publishPumpState false) := by
  obtain ⟨hl1, hl2, hl3, hl4⟩ := lightControl_keeps stage inp g
  have hw := wateringStart_idle stage inp (lightControl stage inp g).1 (hl4.trans hfirst)
    (by rw [hl2]; exact hnot)
  rw [pumpEvents_control]
  simp only [controlWithStage, hw]
  simp only [pumpDurationControl, RelayController.getState, RELAY_PUMP, hl1, hl3, hpump]
  rw [if_pos trivial, if_neg hon, if_pos hexp]
  simp [RelayController.setState, hl2, hl4, hfirst, pumpEvents_setState, pumpEvents_publishIf,
    pumpEvents_nil]

theorem stateBefore_succ (gm : Nat → GrowthManager) (inp : Nat → TickInput) (g0 : Globals)
    (k : Nat) :
    stateBefore gm inp g0 (k + 1) =
      (updateRelaysBasedOnCycle (gm k) (inp k) (stateBefore gm inp g0 k)).1 := rfl

theorem tomato_first_hours (k : Nat) (hk : k < 3900) :
    getCurrentStageSettings (defaultManager ⟨"tomatoes", 1700000000, true⟩)
      (1700000100 + (k : Int)) = some tomatoes.seedling := by
  have hfind : findProfileById (defaultManager ⟨"tomatoes", 1700000000, true⟩) "tomatoes" =
      some tomatoes := rfl
  have he : elapsedDays (1700000100 + (k : Int)) 1700000000 = 0 := by
    unfold elapsedDays toU32
    omega
  have hd : toU32 tomatoes.seedling.duration = 14 := by decide
  unfold getCurrentStageSettings
  simp only [defaultManager, hfind] at *
  simp [he, hd]

/-! ## Irrigation: the 60 minute / 5 minute schedule -/

/-- C7. One tick per second from `t0` (the bootstrap tick, fresh timers, pump off), every
tick finding stage settings with `waterInterval = 60` and `waterDuration = 5`, nothing else
writing the relays: for `k < 3900` the pump is energized after the tick at `t0 + k` exactly
when `k < 300` or `3600 ≤ k`, and the pump events of that tick are ON for `k = 0` and
`k = 3600`, OFF for `k = 300`, none otherwise (an event is published when the broker is
connected). -/
theorem irrigation_schedule_60_5 (gm : Nat → GrowthManager) (inp : Nat → TickInput)
    (g0 : Globals) (t0 : Int)
    (ht0 : 1000000000 ≤ t0) (ht1 : t0 + 3900 < 2147483648)
    (hnow : ∀ k, k < 3900 → (inp k).now = t0 + k)
    (hactive : ∀ k, k < 3900 → (gm k).activeCycle.active = true)
    (hstage : ∀ k, k < 3900 → ∃ s, getCurrentStageSettings (gm k) (t0 + k) = some s ∧
      s.waterInterval = 60 ∧ s.waterDuration = 5)
    (hfirst : g0.firstRun = true) (hlast : g0.lastWateringTime = 0)
    (hon : g0.pumpOnTime = 0) (hpump : g0.relayController.pump = false) :
    ∀ k, k < 3900 →
      ((stateBefore gm inp g0 (k + 1)).relayController.pump = true ↔ (k < 300 ∨ 3600 ≤ k)) ∧
      pumpEvents (tickActions gm inp g0 k) =
        if k = 0 ∨ k = 3600 then publishIf (inp k).connected (Action.publishPumpState true)
        else if k = 300 then publishIf (inp k).connected (Action.publishPumpState false)
        else [] := by
  have main : ∀ k, k < 3900 →
      ((stateBefore gm inp g0 (k + 1)).firstRun = false ∧
       (stateBefore gm inp g0 (k + 1)).relayController.pump = decide (k < 300 ∨ 3600 ≤ k) ∧
       (stateBefore gm inp g0 (k + 1)).lastWateringTime = (if k < 3600 then t0 else t0 + 3600) ∧
       (stateBefore gm inp g0 (k + 1)).pumpOnTime =
         (if k < 300 then t0 else if k < 3600 then 0 else t0 + 3600)) ∧
      pumpEvents (tickActions gm inp g0 k) =
        if k = 0 ∨ k = 3600 then publishIf (inp k).connected (Action.publishPumpState true)
        else if k = 300 then publishIf (inp k).connected (Action.publishPumpState false)
        else [] := by
    intro k
    induction k with
    | zero =>
      intro hk
      obtain ⟨s, hs, -, -⟩ := hstage 0 hk
      have hn := hnow 0 hk
      have hreach := tick_reaches_stage (gm 0) (inp 0) g0 s (hactive 0 hk)
        (by rw [hn]; simp; omega) (by rw [hn]; exact hs)
      obtain ⟨b1, b2, b3, b4, b5⟩ := control_bootstrap s
        (getCurrentGrowthStage (gm 0) (inp 0).now) (inp 0) g0 hfirst hon
      simp only [stateBefore_succ, tickActions, stateBefore, hreach]
      refine ⟨⟨b4, ?_, ?_, ?_⟩, ?_⟩
      · rw [b1]; decide
      · rw [b2, hn]; simp
      · rw [b3, hn]; simp
      · rw [b5]; simp
    | succ k ih =>
      intro hk
      obtain ⟨⟨i1, i2, i3, i4⟩, -⟩ := ih (by omega)
      obtain ⟨s, hs, hiv, hdur⟩ := hstage (k + 1) hk
      have hn := hnow (k + 1) hk
      have hreach := tick_reaches_stage (gm (k + 1)) (inp (k + 1))
        (stateBefore gm inp g0 (k + 1)) s (hactive (k + 1) hk)
        (by rw [hn]; omega) (by rw [hn]; exact hs)
      rw [stateBefore_succ gm inp g0 (k + 1)]
      simp only [tickActions]
      rw [hreach]
      have hnotdue : ∀ L : Int, (L = t0 ∧ k + 1 < 3600) ∨ (L = t0 + 3600 ∧ k + 1 < 3900) →
          (stateBefore gm inp g0 (k + 1)).lastWateringTime = L →
          ¬ ((stateBefore gm inp g0 (k + 1)).lastWateringTime > 0 ∧
            toU32 ((inp (k + 1)).now - (stateBefore gm inp g0 (k + 1)).lastWateringTime) ≥
              toU32 (s.waterInterval * 60)) := by
        intro L hL hl
        rw [hl, hn, hiv]
        unfold toU32
        omega
      by_cases c1 : k + 1 < 300
      · have hp : (stateBefore gm inp g0 (k + 1)).relayController.pump = true := by
          rw [i2]; exact decide_eq_true (by omega)
        have hl : (stateBefore gm inp g0 (k + 1)).lastWateringTime = t0 := by
          rw [i3, if_pos (by omega)]
        have ho : (stateBefore gm inp g0 (k + 1)).pumpOnTime = t0 := by
          rw [i4, if_pos (by omega)]
        obtain ⟨q1, q2, q3, q4, q5⟩ := control_quiet s
          (getCurrentGrowthStage (gm (k + 1)) (inp (k + 1)).now) (inp (k + 1)) _ i1
          (hnotdue t0 (Or.inl ⟨rfl, by omega⟩) hl)
          (Or.inr ⟨hp, by rw [ho]; omega, by
            rw [ho, hn, hdur]; unfold toU32 wrapLong; omega⟩)
        refine ⟨⟨q4, ?_, ?_, ?_⟩, ?_⟩
        · rw [q1, hp]; exact (decide_eq_true (by omega)).symm
        · rw [q2, hl, if_pos (by omega)]
        · rw [q3, ho, if_pos (by omega)]
        · rw [q5, if_neg (by omega), if_neg (by omega)]
      · by_cases c2 : k + 1 = 300
        · have hp : (stateBefore gm inp g0 (k + 1)).relayController.pump = true := by
            rw [i2]; exact decide_eq_true (by omega)
          have hl : (stateBefore gm inp g0 (k + 1)).lastWateringTime = t0 := by
            rw [i3, if_pos (by omega)]
          have ho : (stateBefore gm inp g0 (k + 1)).pumpOnTime = t0 := by
            rw [i4, if_pos (by omega)]
          obtain ⟨q1, q2, q3, q4, q5⟩ := control_expire s
            (getCurrentGrowthStage (gm (k + 1)) (inp (k + 1)).now) (inp (k + 1)) _ i1
            (hnotdue t0 (Or.inl ⟨rfl, by omega⟩) hl) hp (by rw [ho]; omega)
            (by rw [ho, hn, hdur]; unfold toU32 wrapLong; omega)
          refine ⟨⟨q4, ?_, ?_, ?_⟩, ?_⟩
          · rw [q1]; exact (decide_eq_false (by omega)).symm
          · rw [q2, hl, if_pos (by omega)]
          · rw [q3, if_neg (by omega), if_pos (by omega)]
          · rw [q5, if_neg (by omega), if_pos c2]
        · by_cases c3 : k + 1 < 3600
          · have hp : (stateBefore gm inp g0 (k + 1)).relayController.pump = false := by
              rw [i2]; exact decide_eq_false (by omega)
            have hl : (stateBefore gm inp g0 (k + 1)).lastWateringTime = t0 := by
              rw [i3, if_pos (by omega)]
            have ho : (stateBefore gm inp g0 (k + 1)).pumpOnTime = 0 := by
              rw [i4, if_neg (by omega), if_pos (by omega)]
            obtain ⟨q1, q2, q3, q4, q5⟩ := control_quiet s
              (getCurrentGrowthStage (gm (k + 1)) (inp (k + 1)).now) (inp (k + 1)) _ i1
              (hnotdue t0 (Or.inl ⟨rfl, by omega⟩) hl) (Or.inl ⟨hp, ho⟩)
            refine ⟨⟨q4, ?_, ?_, ?_⟩, ?_⟩
            · rw [q1, hp]; exact (decide_eq_false (by omega)).symm
            · rw [q2, hl, if_pos (by omega)]
            · rw [q3, ho, if_neg (by omega), if_pos (by omega)]
            · rw [q5, if_neg (by omega), if_neg (by omega)]
          · by_cases c4 : k + 1 = 3600
            · have hl : (stateBefore gm inp g0 (k + 1)).lastWateringTime = t0 := by
                rw [i3, if_pos (by omega)]
              have ho : (stateBefore gm inp g0 (k + 1)).pumpOnTime = 0 := by
                rw [i4, if_neg (by omega), if_pos (by omega)]
              obtain ⟨q1, q2, q3, q4, q5⟩ := control_due s
                (getCurrentGrowthStage (gm (k + 1)) (inp (k + 1)).now) (inp (k + 1)) _ i1 ho
                (by rw [hl, hn, hiv]; unfold toU32; omega)
              refine ⟨⟨q4, ?_, ?_, ?_⟩, ?_⟩
              · rw [q1]; exact (decide_eq_true (by omega)).symm
              · rw [q2, hn, if_neg (by omega)]; omega
              · rw [q3, hn, if_neg (by omega), if_neg (by omega)]; omega
              · rw [q5, if_pos (by omega)]
            · have hp : (stateBefore gm inp g0 (k + 1)).relayController.pump = true := by
                rw [i2]; exact decide_eq_true (by omega)
              have hl : (stateBefore gm inp g0 (k + 1)).lastWateringTime = t0 + 3600 := by
                rw [i3, if_neg (by omega)]
              have ho : (stateBefore gm inp g0 (k + 1)).pumpOnTime = t0 + 3600 := by
                rw [i4, if_neg (by omega), if_neg (by omega)]
              obtain ⟨q1, q2, q3, q4, q5⟩ := control_quiet s
                (getCurrentGrowthStage (gm (k + 1)) (inp (k + 1)).now) (inp (k + 1)) _ i1
                (hnotdue (t0 + 3600) (Or.inr ⟨rfl, by omega⟩) hl)
                (Or.inr ⟨hp, by rw [ho]; omega, by
                  rw [ho, hn, hdur]; unfold toU32 wrapLong; omega⟩)
              refine ⟨⟨q4, ?_, ?_, ?_⟩, ?_⟩
              · rw [q1, hp]; exact (decide_eq_true (by omega)).symm
              · rw [q2, hl, if_neg (by omega)]
              · rw [q3, ho, if_neg (by omega), if_neg (by omega)]
              · rw [q5, if_neg (by omega), if_neg (by omega)]
  intro k hk
  obtain ⟨⟨-, m2, -, -⟩, m5⟩ := main k hk
  refine ⟨?_, m5⟩
  rw [m2]
  simp

/-- Witness for C7: the tomato cycle (seedling stage: every 60 min for 5 min), bootstrap
tick at 1700000100 from the state at process start, broker connected: the tick at
`t0 + 300` leaves the pump off and publishes the single pump event OFF. -/
theorem irrigation_schedule_60_5_witness :
    (stateBefore (fun _ => defaultManager ⟨"tomatoes", 1700000000, true⟩)
      (fun k => noonTick (1700000100 + (k : Int))) Globals.initial
      (300 + 1)).relayController.pump = false ∧
    pumpEvents (tickActions (fun _ => defaultManager ⟨"tomatoes", 1700000000, true⟩)
      (fun k => noonTick (1700000100 + (k : Int))) Globals.initial 300) =
      [Action.publishPumpState false] := by
  have h := irrigation_schedule_60_5
    (fun _ => defaultManager ⟨"tomatoes", 1700000000, true⟩)
    (fun k => noonTick (1700000100 + (k : Int))) Globals.initial 1700000100
    (by norm_num) (by norm_num) (fun _ _ => rfl) (fun _ _ => rfl)
    (fun k hk => ⟨tomatoes.seedling, tomato_first_hours k hk, rfl, rfl⟩)
    rfl rfl rfl rfl 300 (by norm_num)
  refine ⟨Bool.eq_false_iff.mpr (fun hp => ?_), ?_⟩
  · have h1 := h.1.mp hp
    omega
  · have h2 := h.2
    rw [if_neg (by decide), if_pos rfl] at h2
    exact h2

theorem control_firstRun (stage : GrowthStage) (name : String) (inp : TickInput)
    (g : Globals) : (controlWithStage stage name inp g).1.firstRun = false := by
  have h1 : (controlWithStage stage name inp g).1.firstRun =
      (wateringStart stage inp (lightControl stage inp g).1).1.firstRun :=
    (pumpDuration_keeps stage inp _).2
  rw [h1]
  cases hf : (lightControl stage inp g).1.firstRun with
  | true => rw [wateringStart_first stage inp _ hf]
  | false =>
    rcases wateringStart_cases stage inp (lightControl stage inp g).1 with hw | ⟨-, -, -, -, hw, -⟩
    · rw [hw]; exact hf
    · exact hw

theorem steps_firstRun_false (a g : Globals) (h : Steps a g) (ha : a.firstRun = false) :
    g.firstRun = false := by
  induction h with
  | refl => exact ha
  | tick gm inp _ ih =>
    rcases tick_skips_or_reaches gm inp _ with hs | ⟨stage, hs⟩
    · rw [hs]; exact ih
    · rw [hs]; exact control_firstRun stage _ inp _
  | external relayNum state _ ih => exact ih

theorem steps_timers_idle (a g : Globals) (h : Steps a g)
    (ha : a.firstRun = true → a.lastWateringTime = 0 ∧ a.pumpOnTime = 0) :
    g.firstRun = true → g.lastWateringTime = 0 ∧ g.pumpOnTime = 0 := by
  induction h with
  | refl => exact ha
  | tick gm inp _ ih =>
    rcases tick_skips_or_reaches gm inp _ with hs | ⟨stage, hs⟩
    · rw [hs]; exact ih
    · rw [hs]
      intro hf
      rw [control_firstRun stage _ inp _] at hf
      exact absurd hf (by decide)
  | external relayNum state _ ih => exact ih

/-! ## Irrigation: the bootstrap tick -/

/-- C8. In a state the process can reach with `firstRun` still true, a tick that reaches
the irrigation logic (cycle active, clock synchronized, stage settings found) ends with
the pump energized, `lastWateringTime = now`, `pumpOnTime = now` and `firstRun` cleared,
whatever the stage's interval and the pump state before; and `firstRun` stays cleared
through everything that follows, so the bootstrap branch is never taken again. -/
theorem bootstrap_tick (gm : GrowthManager) (inp : TickInput) (g : Globals)
    (stage : GrowthStage)
    (hreach : Reachable g) (hfirst : g.firstRun = true)
    (hactive : gm.activeCycle.active = true) (htime : 1000000000 ≤ inp.now)
    (hstage : getCurrentStageSettings gm inp.now = some stage) :
    (updateRelaysBasedOnCycle gm inp g).1.relayController.pump = true ∧
    (updateRelaysBasedOnCycle gm inp g).1.lastWateringTime = inp.now ∧
    (updateRelaysBasedOnCycle gm inp g).1.pumpOnTime = inp.now ∧
    (updateRelaysBasedOnCycle gm inp g).1.firstRun = false ∧
    (∀ g2, Steps (updateRelaysBasedOnCycle gm inp g).1 g2 → g2.firstRun = false) := by
  have hidle := steps_timers_idle Globals.initial g hreach (fun _ => ⟨rfl, rfl⟩) hfirst
  rw [tick_reaches_stage gm inp g stage hactive htime hstage]
  obtain ⟨b1, b2, b3, b4, -⟩ := control_bootstrap stage (getCurrentGrowthStage gm inp.now)
    inp g hfirst hidle.2
  exact ⟨b1, b2, b3, b4, fun g2 h2 => steps_firstRun_false _ g2 h2 b4⟩

/-- Witness for C8: process start, then the pump switched on by hand, then the first tick
of the tomato cycle at 1700000100. -/
theorem bootstrap_tick_witness :
    (updateRelaysBasedOnCycle (defaultManager ⟨"tomatoes", 1700000000, true⟩)
      (noonTick 1700000100)
      { Globals.initial with relayController :=
          Globals.initial.relayController.setState RELAY_PUMP true }).1.pumpOnTime
      = 1700000100 :=
  (bootstrap_tick (defaultManager ⟨"tomatoes", 1700000000, true⟩) (noonTick 1700000100)
    { Globals.initial with relayController :=
        Globals.initial.relayController.setState RELAY_PUMP true }
    tomatoes.seedling (Steps.external RELAY_PUMP true (Steps.refl Globals.initial)) rfl rfl
    (by decide) rfl).2.2.1

/-! ## Liquid level -/

theorem constrain_bounds (amt low high : Int) (h : low ≤ high) :
    low ≤ constrain amt low high ∧ constrain amt low high ≤ high := by
  unfold constrain
  split_ifs <;> omega

/-- C9. For every sensor state, raw reading and calibration (dry, full): the raw value is
not a number exactly when the sensor is not ready, and a ready sensor stores the count it
read; the liquid level is Undefined (`NAN`) exactly when `full = dry` or the sensor is not
ready; and with `full ≠ dry` and a ready sensor the level is a number `p`, the clamp of the
linear map of the reading, with `0 ≤ p ≤ 100`. Every level that is a number lies in
0..100. -/
theorem liquid_level_classification (isReady : Bool) (reading dry full : Int) :
    ((readLiquid isReady reading dry full).lastLiquidValue = none ↔ isReady = false) ∧
    (isReady = true → (readLiquid isReady reading dry full).lastLiquidValue = some reading) ∧
    ((readLiquid isReady reading dry full).lastLiquidLevel = none ↔
      (full = dry ∨ isReady = false)) ∧
    (full ≠ dry → isReady = true →
      ∃ p, (readLiquid isReady reading dry full).lastLiquidLevel = some p ∧
        p = constrain (map reading dry full 0 100) 0 100 ∧ 0 ≤ p ∧ p ≤ 100) ∧
    (∀ p, (readLiquid isReady reading dry full).lastLiquidLevel = some p →
      0 ≤ p ∧ p ≤ 100) := by
  have hb := constrain_bounds (map reading dry full 0 100) 0 100 (by decide)
  cases isReady with
  | false => simp [readLiquid]
  | true =>
    by_cases h : full = dry
    · simp [readLiquid, h]
    · have hl : (readLiquid true reading dry full).lastLiquidLevel =
          some (constrain (map reading dry full 0 100) 0 100) := by
        simp only [readLiquid, if_true, Option.isSome_some, and_true, ne_eq, h,
          not_false_eq_true]
      have hv : (readLiquid true reading dry full).lastLiquidValue = some reading := by
        simp only [readLiquid, if_true, Option.isSome_some, and_true, ne_eq, h,
          not_false_eq_true]
      refine ⟨?_, fun _ => hv, ?_, fun _ _ => ⟨_, hl, rfl, hb⟩, ?_⟩
      · rw [hv]
        simp
      · rw [hl]
        simp [h]
      · intro p hp
        rw [hl] at hp
        cases hp
        exact hb

/-- A ready sensor reading 5000000 counts between dry 2000000 and full 9000000 gives the
level 42, a number in 0..100; the same reading with the sensor not ready gives no level. -/
theorem liquid_level_classification_witness :
    (readLiquid true 5000000 2000000 9000000).lastLiquidLevel = some 42 ∧
    (readLiquid false 5000000 2000000 9000000).lastLiquidLevel = none ∧
    (∃ p, (readLiquid true 5000000 2000000 9000000).lastLiquidLevel = some p ∧
      p = constrain (map 5000000 2000000 9000000 0 100) 0 100 ∧ 0 ≤ p ∧ p ≤ 100) :=
  ⟨by decide, by decide,
    (liquid_level_classification true 5000000 2000000 9000000).2.2.2.1 (by decide) rfl⟩

theorem wrapLong_of_range (x : Int) (h0 : -2147483648 ≤ x) (h1 : x < 2147483648) :
    wrapLong x = x := by
  unfold wrapLong
  omega

/-- C10. For a calibration whose two points are raw counts of the 24-bit sensor and
differ (`full > dry` or `full < dry`), the level computed for `raw = dry` is exactly 0 and
the level computed for `raw = full` is exactly 100. -/
theorem liquid_level_endpoints (dry full : Int)
    (hd0 : 0 ≤ dry) (hd1 : dry < 16777216) (hf0 : 0 ≤ full) (hf1 : full < 16777216)
    (hne : full ≠ dry) :
    (readLiquid true dry dry full).lastLiquidLevel = some 0 ∧
    (readLiquid true full dry full).lastLiquidLevel = some 100 := by
  have hrun : wrapLong (full - dry) = full - dry := wrapLong_of_range _ (by omega) (by omega)
  have h100 : wrapLong (100 - 0) = 100 := by decide
  have hz : wrapLong (dry - dry) = 0 := by rw [sub_self]; decide
  have hprod : wrapLong ((full - dry) * 100) = (full - dry) * 100 :=
    wrapLong_of_range _ (by omega) (by omega)
  have hne2 : full - dry ≠ 0 := sub_ne_zero.mpr hne
  have m0 : map dry dry full 0 100 = 0 := by
    unfold map
    have w0 : wrapLong 0 = 0 := by decide
    rw [hz, h100, hrun, zero_mul, w0, Int.zero_tdiv, w0]
    decide
  have m100 : map full dry full 0 100 = 100 := by
    unfold map
    rw [hrun, h100, hprod, Int.mul_tdiv_cancel_left _ hne2]
    decide
  simp only [readLiquid, if_true, Option.isSome_some, and_true, ne_eq, hne, not_false_eq_true,
    m0, m100]
  exact ⟨rfl, rfl⟩

/-- Witness for C10: a falling calibration, dry = 9000000 and full = 2000000. -/
theorem liquid_level_endpoints_witness :
    (readLiquid true 9000000 9000000 2000000).lastLiquidLevel = some 0 ∧
    (readLiquid true 2000000 9000000 2000000).lastLiquidLevel = some 100 :=
  liquid_level_endpoints 9000000 2000000 (by decide) (by decide) (by decide) (by decide)
    (by decide)

/-! ## pH conversion -/

/-- C11. For every raw value `a`, after `setCalibration(a, a, a)` the least-squares
denominator is zero, so the slope is 0, the intercept 7.0, and `adcToPH(x)` is exactly 7.0
for every input `x` (exact arithmetic). -/
theorem phmeter_equal_anchors_fallback (m : PHMeter) (a x : Int) :
    (m.setCalibration a a a).slope = 0 ∧
    (m.setCalibration a a a).intercept = 7 ∧
    (m.setCalibration a a a).adcToPH x = 7 := by
  have hden : (3 : Rat) * (0 + (a : Rat) * a + (a : Rat) * a + (a : Rat) * a) -
      (0 + (a : Rat) + a + a) * (0 + (a : Rat) + a + a) = 0 := by ring
  have h : m.setCalibration a a a =
      { m with adcValues := [a, a, a], phValues := [4, 7, 10], slope := 0, intercept := 7 } := by
    simp only [PHMeter.setCalibration, PHMeter.computeSlopeIntercept, PHMeter.sums,
      List.getD_cons_zero, List.getD_cons_succ]
    rw [if_neg (by rw [hden]; simp)]
  rw [h]
  simp [PHMeter.adcToPH]

/-- C12 (failing input). Calibration `ph4ADC = ph7ADC = 2500`, `ph10ADC = 0` and the
reading 2500: the two-segment model is chosen, its first segment divides by
`ph7ADC - ph4ADC = 0`, and `lastPH` is not a number instead of 7.0. The same happens in
the second segment for `ph10ADC = ph7ADC` and a reading above `ph7ADC`. -/
theorem sensorPH_zero_denominator_not_neutral :
    sensorPH 2500 2500 2500 0 (some 7) = none ∧
    sensorPH 2500 2500 2500 0 (some 7) ≠ some 7 ∧
    floatDiv (7 - 4) (2500 - 2500) = none ∧
    sensorPH 2600 2000 2500 2500 (some 7) = none := by
  have h1 : sensorPH 2500 2500 2500 0 (some 7) = none := by
    norm_num [sensorPH, segmentPH, floatDiv]
  refine ⟨h1, ?_, ?_, ?_⟩
  · rw [h1]; exact fun h => Option.noConfusion h
  · norm_num [floatDiv]
  · norm_num [sensorPH, segmentPH, floatDiv]

theorem sensorPH_first_segment (adcValue ph4ADC ph7ADC ph10ADC : Rat)
    (phMeterPH : Option Rat) (h4 : ph4ADC > 0) (h7 : ph7ADC > 0)
    (hn : ¬ (ph10ADC > 0 ∧ adcValue > ph7ADC)) :
    sensorPH adcValue ph4ADC ph7ADC ph10ADC phMeterPH =
      segmentPH (floatDiv (7 - 4) (ph7ADC - ph4ADC)) ph7ADC adcValue := by
  unfold sensorPH
  rw [if_pos ⟨h4, h7⟩]
  simp only []
  rw [if_neg hn]

theorem sensorPH_second_segment (adcValue ph4ADC ph7ADC ph10ADC : Rat)
    (phMeterPH : Option Rat) (h4 : ph4ADC > 0) (h7 : ph7ADC > 0)
    (h10 : ph10ADC > 0) (ha : adcValue > ph7ADC) :
    sensorPH adcValue ph4ADC ph7ADC ph10ADC phMeterPH =
      segmentPH (floatDiv (10 - 7) (ph10ADC - ph7ADC)) ph7ADC adcValue := by
  unfold sensorPH
  rw [if_pos ⟨h4, h7⟩]
  simp only []
  rw [if_pos ⟨h10, ha⟩]

/-- For every calibration that selects the two-segment model and every reading whose
segment has a zero denominator, `lastPH` is not a number. -/
theorem sensorPH_zero_denominator (adcValue ph4ADC ph7ADC ph10ADC : Rat)
    (phMeterPH : Option Rat) (h4 : ph4ADC > 0) (h7 : ph7ADC > 0)
    (hzero : (ph7ADC = ph4ADC ∧ ¬ (ph10ADC > 0 ∧ adcValue > ph7ADC)) ∨
      (ph10ADC = ph7ADC ∧ adcValue > ph7ADC)) :
    sensorPH adcValue ph4ADC ph7ADC ph10ADC phMeterPH = none := by
  rcases hzero with ⟨he, hn⟩ | ⟨he, ha⟩
  · rw [sensorPH_first_segment _ _ _ _ _ h4 h7 hn]
    simp [segmentPH, floatDiv, he]
  · rw [sensorPH_second_segment _ _ _ _ _ h4 h7 (by rw [he]; exact h7) ha]
    simp [segmentPH, floatDiv, he]

/-- C13 (failing input). A calibration whose raw value falls with pH, `ph4ADC = 3000`,
`ph7ADC = 2500`, `ph10ADC = 2100`: the reading `ph10ADC` is not above `ph7ADC`, so it is
converted on the 4-7 segment and gives 9.4, and the reading `ph4ADC` is above `ph7ADC`, so
it is converted on the 7-10 segment and gives 3.25. -/
theorem sensorPH_falling_calibration_misses_anchors :
    sensorPH 2100 3000 2500 2100 none = some (47 / 5) ∧
    sensorPH 3000 3000 2500 2100 none = some (13 / 4) ∧
    sensorPH 2500 3000 2500 2100 none = some 7 ∧
    sensorPH 2100 3000 2500 2100 none ≠ some 10 ∧
    sensorPH 3000 3000 2500 2100 none ≠ some 4 := by
  refine ⟨?_, ?_, ?_, ?_, ?_⟩ <;> simp [sensorPH, segmentPH, floatDiv] <;> norm_num

/-- For a calibration whose positive raw anchors rise with pH, the two-segment
conversion maps each anchor to its pH: 4.0, 7.0 and 10.0. -/
theorem sensorPH_rising_calibration_anchors (ph4ADC ph7ADC ph10ADC : Rat)
    (phMeterPH : Option Rat) (h4 : ph4ADC > 0) (h47 : ph4ADC < ph7ADC)
    (h710 : ph7ADC < ph10ADC) :
    sensorPH ph4ADC ph4ADC ph7ADC ph10ADC phMeterPH = some 4 ∧
    sensorPH ph7ADC ph4ADC ph7ADC ph10ADC phMeterPH = some 7 ∧
    sensorPH ph10ADC ph4ADC ph7ADC ph10ADC phMeterPH = some 10 := by
  have h7 : ph7ADC > 0 := lt_trans h4 h47
  have h10 : ph10ADC > 0 := lt_trans h7 h710
  have d1 : ph7ADC - ph4ADC ≠ 0 := sub_ne_zero.mpr (ne_of_gt h47)
  have d2 : ph10ADC - ph7ADC ≠ 0 := sub_ne_zero.mpr (ne_of_gt h710)
  rw [sensorPH_first_segment ph4ADC _ _ _ _ h4 h7
      (fun h => absurd h.2 (not_lt.mpr (le_of_lt h47))),
    sensorPH_first_segment ph7ADC _ _ _ _ h4 h7 (fun h => absurd h.2 (lt_irrefl _)),
    sensorPH_second_segment ph10ADC _ _ _ _ h4 h7 h10 h710]
  simp only [segmentPH, floatDiv, if_neg d1, if_neg d2, Option.some.injEq]
  refine ⟨?_, ?_, ?_⟩
  · field_simp
    ring
  · field_simp
  · field_simp
    ring

/-! ## Stage settings and cycle start -/

theorem findProfileById_none_iff (m : GrowthManager) (id : String) :
    findProfileById m id = none ↔ findProfileIndex m id = none := by
  unfold findProfileById
  cases h : findProfileIndex m id with
  | none => simp
  | some i =>
    obtain ⟨-, -, q, hq, -⟩ := scanProfiles_some m.profiles id m.profileCount 0 i h
    simp [hq]

/-- C14. `getCurrentStageSettings` returns `nullptr` if and only if the cycle is inactive
or its `profileId` matches no stored profile; otherwise, for the same time, the stage that
`getCurrentGrowthStage` names is Seedling, Growing or Harvesting and the settings returned
are those of exactly that stage of the cycle's profile. -/
theorem stage_settings_availability (m : GrowthManager) (now : Int) :
    (getCurrentStageSettings m now = none ↔
      (m.activeCycle.active = false ∨
        findProfileById m m.activeCycle.profileId = none)) ∧
    (∀ p : GrowthProfile, m.activeCycle.active = true →
      findProfileById m m.activeCycle.profileId = some p →
      (getCurrentGrowthStage m now = "Seedling" ∧
        getCurrentStageSettings m now = some p.seedling) ∨
      (getCurrentGrowthStage m now = "Growing" ∧
        getCurrentStageSettings m now = some p.growing) ∨
      (getCurrentGrowthStage m now = "Harvesting" ∧
        getCurrentStageSettings m now = some p.harvesting)) := by
  constructor
  · unfold getCurrentStageSettings
    cases ha : m.activeCycle.active with
    | false => simp
    | true =>
      cases hf : findProfileById m m.activeCycle.profileId with
      | none => simp
      | some p =>
        simp only [Bool.not_true, Bool.false_eq_true, if_false, reduceCtorEq, false_or,
          iff_false]
        split_ifs <;> simp
  · intro p ha hf
    unfold getCurrentStageSettings getCurrentGrowthStage
    simp only [ha, hf, Bool.not_true, Bool.false_eq_true, if_false]
    by_cases c1 : elapsedDays now m.activeCycle.startTime < toU32 p.seedling.duration
    · left
      rw [if_pos c1, if_pos c1]
      exact ⟨rfl, rfl⟩
    · by_cases c2 : elapsedDays now m.activeCycle.startTime <
          toU32 (p.seedling.duration + p.growing.duration)
      · right; left
        rw [if_neg c1, if_pos c2, if_neg c1, if_pos c2]
        exact ⟨rfl, rfl⟩
      · right; right
        rw [if_neg c1, if_neg c2, if_neg c1, if_neg c2]
        exact ⟨rfl, rfl⟩

/-- Witness for C14: the tomato cycle 20 days after its start is Growing and the settings
are the growing settings of the tomato profile; the names differ, so only this disjunct
holds. -/
theorem stage_settings_availability_witness :
    (getCurrentGrowthStage (defaultManager ⟨"tomatoes", 1700000000, true⟩) 1701728000
        = "Seedling" ∧
      getCurrentStageSettings (defaultManager ⟨"tomatoes", 1700000000, true⟩) 1701728000
        = some tomatoes.seedling) ∨
    (getCurrentGrowthStage (defaultManager ⟨"tomatoes", 1700000000, true⟩) 1701728000
        = "Growing" ∧
      getCurrentStageSettings (defaultManager ⟨"tomatoes", 1700000000, true⟩) 1701728000
        = some tomatoes.growing) ∨
    (getCurrentGrowthStage (defaultManager ⟨"tomatoes", 1700000000, true⟩) 1701728000
        = "Harvesting" ∧
      getCurrentStageSettings (defaultManager ⟨"tomatoes", 1700000000, true⟩) 1701728000
        = some tomatoes.harvesting) :=
  (stage_settings_availability (defaultManager ⟨"tomatoes", 1700000000, true⟩)
    1701728000).2 tomatoes rfl rfl

theorem toU32_wrapLong (x : Int) : toU32 (wrapLong x) = toU32 x := by
  unfold toU32 wrapLong
  omega

/-- C15. For a `profileId` that matches no stored profile `startGrowthCycle` returns
`false` and leaves the manager, hence the active cycle, and the persistent storage exactly
as they were. For a `profileId` that matches it returns `true`, the cycle becomes
`(profileId, startTime, active = true)` and that cycle is committed to storage; the start
time is kept as a `long`, equal to `startTime` below `2^31` and to the same 32-bit value
in every case. -/
theorem start_cycle_atomic (m : GrowthManager) (prefs : Preferences) (profileId : String)
    (startTime : Int) :
    (findProfileById m profileId = none →
      GrowthManager.startGrowthCycle m prefs profileId startTime = (false, m, prefs)) ∧
    (findProfileById m profileId ≠ none →
      (GrowthManager.startGrowthCycle m prefs profileId startTime).1 = true ∧
      (GrowthManager.startGrowthCycle m prefs profileId startTime).2.1.activeCycle =
        ⟨profileId, wrapLong startTime, true⟩ ∧
      (GrowthManager.startGrowthCycle m prefs profileId startTime).2.1.profiles = m.profiles ∧
      (GrowthManager.startGrowthCycle m prefs profileId startTime).2.1.profileCount =
        m.profileCount ∧
      (GrowthManager.startGrowthCycle m prefs profileId startTime).2.2.activeCycle =
        some ⟨profileId, wrapLong startTime, true⟩ ∧
      toU32 (wrapLong startTime) = toU32 startTime ∧
      (0 ≤ startTime → startTime < 2147483648 → wrapLong startTime = startTime)) := by
  constructor
  · intro h
    rw [findProfileById_none_iff] at h
    unfold findProfileIndex at h
    simp [GrowthManager.startGrowthCycle, h]
  · intro h
    rw [Ne, findProfileById_none_iff] at h
    unfold findProfileIndex at h
    obtain ⟨i, hi⟩ := Option.ne_none_iff_exists'.mp h
    simp only [GrowthManager.startGrowthCycle, hi, Option.isSome_some, Bool.not_true,
      Bool.false_eq_true, if_false, saveActiveCycle]
    exact ⟨trivial, trivial, trivial, trivial, trivial, toU32_wrapLong startTime,
      fun h0 h1 => wrapLong_of_range startTime (by omega) h1⟩

/-- Witness for C15: on the default catalog "basil" is refused and "lettuce" starts. -/
theorem start_cycle_atomic_witness :
    GrowthManager.startGrowthCycle (defaultManager ⟨"tomatoes", 1700000000, true⟩)
        ⟨3, DEFAULT_PROFILES, none⟩ "basil" 1700500000 =
      (false, defaultManager ⟨"tomatoes", 1700000000, true⟩, ⟨3, DEFAULT_PROFILES, none⟩) ∧
    (GrowthManager.startGrowthCycle (defaultManager ⟨"tomatoes", 1700000000, true⟩)
        ⟨3, DEFAULT_PROFILES, none⟩ "lettuce" 1700500000).1 = true :=
  ⟨(start_cycle_atomic (defaultManager ⟨"tomatoes", 1700000000, true⟩)
      ⟨3, DEFAULT_PROFILES, none⟩ "basil" 1700500000).1 rfl,
   ((start_cycle_atomic (defaultManager ⟨"tomatoes", 1700000000, true⟩)
      ⟨3, DEFAULT_PROFILES, none⟩ "lettuce" 1700500000).2
      (fun h => Option.noConfusion (h : some lettuce = none))).1⟩

/-- The in-memory part of `GrowthManager.startGrowthCycle` is `startGrowthCycle`. -/
theorem startGrowthCycle_memory (m : GrowthManager) (prefs : Preferences)
    (profileId : String) (startTime : Int) :
    (GrowthManager.startGrowthCycle m prefs profileId startTime).1 =
      (startGrowthCycle m profileId startTime).1 ∧
    (GrowthManager.startGrowthCycle m prefs profileId startTime).2.1 =
      (startGrowthCycle m profileId startTime).2 := by
  unfold GrowthManager.startGrowthCycle startGrowthCycle findProfileIndex
  cases h : scanProfiles m.profiles profileId 0 m.profileCount <;> simp

/-! ## Loading the active cycle -/

/-- C17. When the stored cycle is active and its `profileId` matches no profile of the
loaded catalog, `loadActiveCycle` yields that cycle with `active = false` (`profileId` and
`startTime` as stored), commits the corrected cycle to storage, and
`getCurrentStageSettings` afterwards returns `nullptr` at every time. A stored cycle whose
`profileId` matches a profile is loaded unchanged and nothing is written. -/
theorem dangling_cycle_self_heal (m : GrowthManager) (prefs : Preferences)
    (c : GrowthCycle) (hstored : prefs.activeCycle = some c) :
    (c.active = true → findProfileById m c.profileId = none →
      (loadActiveCycle m prefs).1.activeCycle = ⟨c.profileId, c.startTime, false⟩ ∧
      (loadActiveCycle m prefs).1.profiles = m.profiles ∧
      (loadActiveCycle m prefs).1.profileCount = m.profileCount ∧
      (loadActiveCycle m prefs).2.activeCycle = some ⟨c.profileId, c.startTime, false⟩ ∧
      (∀ now, getCurrentStageSettings (loadActiveCycle m prefs).1 now = none)) ∧
    (findProfileById m c.profileId ≠ none →
      (loadActiveCycle m prefs).1.activeCycle = c ∧
      (loadActiveCycle m prefs).1.profiles = m.profiles ∧
      (loadActiveCycle m prefs).1.profileCount = m.profileCount ∧
      (loadActiveCycle m prefs).2 = prefs) := by
  constructor
  · intro hact hnone
    rw [findProfileById_none_iff] at hnone
    unfold findProfileIndex at hnone
    have h : loadActiveCycle m prefs =
        ({ m with activeCycle := ⟨c.profileId, c.startTime, false⟩ },
          { prefs with activeCycle := some ⟨c.profileId, c.startTime, false⟩ }) := by
      simp [loadActiveCycle, hstored, hnone, hact, saveActiveCycle]
    rw [h]
    refine ⟨rfl, rfl, rfl, rfl, fun now => ?_⟩
    simp [getCurrentStageSettings]
  · intro hsome
    rw [Ne, findProfileById_none_iff] at hsome
    unfold findProfileIndex at hsome
    obtain ⟨i, hi⟩ := Option.ne_none_iff_exists'.mp hsome
    have h : loadActiveCycle m prefs = ({ m with activeCycle := c }, prefs) := by
      simp [loadActiveCycle, hstored, hi]
    rw [h]
    exact ⟨rfl, rfl, rfl, rfl⟩

/-- Witness for C17: the default catalog with the stored cycles ("basil", 1700000000,
active) and ("lettuce", 1700000000, active). -/
theorem dangling_cycle_self_heal_witness :
    (loadActiveCycle (defaultManager ⟨"", 0, false⟩)
      ⟨3, DEFAULT_PROFILES, some ⟨"basil", 1700000000, true⟩⟩).2.activeCycle =
      some ⟨"basil", 1700000000, false⟩ ∧
    (loadActiveCycle (defaultManager ⟨"", 0, false⟩)
      ⟨3, DEFAULT_PROFILES, some ⟨"lettuce", 1700000000, true⟩⟩).1.activeCycle =
      ⟨"lettuce", 1700000000, true⟩ :=
  ⟨((dangling_cycle_self_heal (defaultManager ⟨"", 0, false⟩)
      ⟨3, DEFAULT_PROFILES, some ⟨"basil", 1700000000, true⟩⟩
      ⟨"basil", 1700000000, true⟩ rfl).1 rfl rfl).2.2.2.1,
   ((dangling_cycle_self_heal (defaultManager ⟨"", 0, false⟩)
      ⟨3, DEFAULT_PROFILES, some ⟨"lettuce", 1700000000, true⟩⟩
      ⟨"lettuce", 1700000000, true⟩ rfl).2
      (fun h => Option.noConfusion (h : some lettuce = none))).1⟩

/-! ## The scan over the slots -/

theorem scanProfiles_congr (ps qs : List GrowthProfile) (id : String) (n : Nat) :
    ∀ i, (∀ k, i ≤ k → k < i + n →
        (ps[k]?).map GrowthProfile.id = (qs[k]?).map GrowthProfile.id) →
      scanProfiles ps id i n = scanProfiles qs id i n := by
  induction n with
  | zero => intro i _; rfl
  | succ n ih =>
    intro i h
    have hi := h i (le_refl _) (by omega)
    have hrest := ih (i + 1) (fun k h1 h2 => h k (by omega) (by omega))
    unfold scanProfiles
    cases hp : ps[i]? with
    | none =>
      cases hq : qs[i]? with
      | none => simpa using hrest
      | some q => rw [hp, hq] at hi; simp at hi
    | some p =>
      cases hq : qs[i]? with
      | none => rw [hp, hq] at hi; simp at hi
      | some q =>
        rw [hp, hq] at hi
        simp only [Option.map_some', Option.some.injEq] at hi
        simp only [hi, hrest]

theorem scanProfiles_none (ps : List GrowthProfile) (id : String) (n : Nat) :
    ∀ i, scanProfiles ps id i n = none →
      ∀ k q, i ≤ k → k < i + n → ps[k]? = some q → q.id ≠ id := by
  induction n with
  | zero => intro i _ k q h1 h2; omega
  | succ n ih =>
    intro i h k q h1 h2 hq
    unfold scanProfiles at h
    cases hp : ps[i]? with
    | none =>
      rw [hp] at h
      rcases Nat.eq_or_lt_of_le h1 with he | hl
      · subst he; rw [hp] at hq; exact absurd hq (by simp)
      · exact ih (i + 1) h k q hl (by omega) hq
    | some p =>
      rw [hp] at h
      by_cases hid : p.id = id
      · simp [hid] at h
      · simp only [hid, if_false] at h
        rcases Nat.eq_or_lt_of_le h1 with he | hl
        · subst he
          rw [hp] at hq
          cases hq
          exact hid
        · exact ih (i + 1) h k q hl (by omega) hq

theorem scanProfiles_first (ps : List GrowthProfile) (id : String) (n : Nat) :
    ∀ i j, scanProfiles ps id i n = some j →
      ∀ k q, i ≤ k → k < j → ps[k]? = some q → q.id ≠ id := by
  induction n with
  | zero => intro i j h; simp [scanProfiles] at h
  | succ n ih =>
    intro i j h k q h1 h2 hq
    unfold scanProfiles at h
    cases hp : ps[i]? with
    | none =>
      rw [hp] at h
      rcases Nat.eq_or_lt_of_le h1 with he | hl
      · subst he; rw [hp] at hq; exact absurd hq (by simp)
      · exact ih (i + 1) j h k q hl h2 hq
    | some p =>
      rw [hp] at h
      by_cases hid : p.id = id
      · simp only [hid, if_true, Option.some.injEq] at h
        omega
      · simp only [hid, if_false] at h
        rcases Nat.eq_or_lt_of_le h1 with he | hl
        · subst he
          rw [hp] at hq
          cases hq
          exact hid
        · exact ih (i + 1) j h k q hl h2 hq

theorem scanProfiles_succ (ps : List GrowthProfile) (id : String) (n : Nat) :
    ∀ i, scanProfiles ps id i (n + 1) =
      match scanProfiles ps id i n with
      | some j => some j
      | none =>
        match ps[i + n]? with
        | some q => if q.id = id then some (i + n) else none
        | none => none := by
  induction n with
  | zero =>
    intro i
    simp only [scanProfiles, Nat.add_zero]
  | succ n ih =>
    intro i
    rw [scanProfiles]
    cases hp : ps[i]? with
    | none =>
      simp only []
      rw [ih (i + 1)]
      conv_rhs => rw [scanProfiles, hp]
      simp only [Nat.add_assoc, Nat.add_comm 1 n]
    | some p =>
      simp only []
      by_cases hid : p.id = id
      · rw [if_pos hid]
        conv_rhs => rw [scanProfiles, hp]
        simp [hid]
      · rw [if_neg hid, ih (i + 1)]
        conv_rhs => rw [scanProfiles, hp]
        simp only [hid, if_false, Nat.add_assoc, Nat.add_comm 1 n]

theorem set_same_id_slots (ps : List GrowthProfile) (i : Nat) (p q : GrowthProfile)
    (hq : ps[i]? = some q) (hid : q.id = p.id) (k : Nat) :
    ((ps.set i p)[k]?).map GrowthProfile.id = (ps[k]?).map GrowthProfile.id := by
  have hlen : i < ps.length := by
    rcases Nat.lt_or_ge i ps.length with h | h
    · exact h
    · rw [List.getElem?_eq_none h] at hq
      exact absurd hq (by simp)
  by_cases hk : i = k
  · subst hk
    simp [List.getElem?_set, hlen, hq, hid]
  · simp [List.getElem?_set, hk]

theorem take_set_self (ps : List GrowthProfile) (n : Nat) (p : GrowthProfile) :
    (ps.set n p).take n = ps.take n := by
  apply List.ext_getElem?
  intro k
  by_cases hk : k < n
  · simp [List.getElem?_take, hk, List.getElem?_set, show n ≠ k by omega]
  · simp [List.getElem?_take, hk]

theorem take_succ_set (ps : List GrowthProfile) (n : Nat) (p : GrowthProfile)
    (h : n < ps.length) : (ps.set n p).take (n + 1) = ps.take n ++ [p] := by
  rw [List.take_succ, take_set_self]
  simp [List.getElem?_set, h]

theorem ids_congr (ps qs : List GrowthProfile)
    (h : ∀ k : Nat, (ps[k]?).map GrowthProfile.id = (qs[k]?).map GrowthProfile.id)
    (n : Nat) :
    (ps.take n).map GrowthProfile.id = (qs.take n).map GrowthProfile.id := by
  apply List.ext_getElem?
  intro k
  by_cases hk : k < n
  · simp only [List.getElem?_map, List.getElem?_take, hk, if_true]
    exact h k
  · simp [List.getElem?_take, hk]

theorem findProfileIndex_set_same_id (m : GrowthManager) (i : Nat) (p q : GrowthProfile)
    (hq : m.profiles[i]? = some q) (hid : q.id = p.id) (x : String) :
    findProfileIndex { m with profiles := m.profiles.set i p } x = findProfileIndex m x := by
  unfold findProfileIndex
  exact scanProfiles_congr _ _ x m.profileCount 0
    (fun k _ _ => set_same_id_slots m.profiles i p q hq hid k)

/-! ## Saving and finding profiles -/

/-- C18. After a successful `addProfile(p)` on the ten-slot array: `findProfileById(p.id)`
returns `p`; `findProfileById(j)` returns what it returned before for every `j ≠ p.id`;
and the stored profiles keep their slot order: an existing id is replaced in place (the
sequence of ids is unchanged), a new id is appended after all of them. -/
theorem save_find_round_trip (m : GrowthManager) (p : GrowthProfile)
    (hlen : m.profiles.length = MAX_PROFILES) (hok : (addProfile m p).1 = true) :
    findProfileById (addProfile m p).2 p.id = some p ∧
    (∀ j, j ≠ p.id → findProfileById (addProfile m p).2 j = findProfileById m j) ∧
    ((∃ i, findProfileIndex m p.id = some i ∧
        storedProfiles (addProfile m p).2 = (storedProfiles m).set i p ∧
        (storedProfiles (addProfile m p).2).map GrowthProfile.id =
          (storedProfiles m).map GrowthProfile.id) ∨
     (findProfileById m p.id = none ∧
        storedProfiles (addProfile m p).2 = storedProfiles m ++ [p])) := by
  have hcap : m.profileCount < MAX_PROFILES := by
    by_contra hc
    unfold addProfile at hok
    rw [if_pos (by omega)] at hok
    exact Bool.noConfusion hok
  cases hfind : findProfileIndex m p.id with
  | some i =>
    obtain ⟨-, hi, q, hq, hqid⟩ := scanProfiles_some m.profiles p.id m.profileCount 0 i hfind
    have hilen : i < m.profiles.length := by
      rcases Nat.lt_or_ge i m.profiles.length with h | h
      · exact h
      · rw [List.getElem?_eq_none h] at hq
        exact absurd hq (by simp)
    have hadd : (addProfile m p).2 = { m with profiles := m.profiles.set i p } := by
      unfold addProfile
      rw [if_neg (by omega), hfind]
    have hidx := findProfileIndex_set_same_id m i p q hq hqid
    rw [hadd]
    refine ⟨?_, ?_, Or.inl ⟨i, rfl, ?_, ?_⟩⟩
    · unfold findProfileById
      rw [hidx, hfind]
      simp [hilen]
    · intro j hj
      unfold findProfileById
      rw [hidx]
      cases hjx : findProfileIndex m j with
      | none => rfl
      | some k =>
        obtain ⟨-, -, r, hr, hrid⟩ := scanProfiles_some m.profiles j m.profileCount 0 k hjx
        have hki : i ≠ k := by
          intro he
          subst he
          rw [hq] at hr
          cases hr
          exact hj (hrid.symm.trans hqid)
        simp [List.getElem?_set, hki]
    · simp only [storedProfiles]
      exact List.set_take
    · simp only [storedProfiles]
      exact ids_congr _ _ (set_same_id_slots m.profiles i p q hq hqid) _
  | none =>
    have hclen : m.profileCount < m.profiles.length := by rw [hlen]; exact hcap
    have hadd : (addProfile m p).2 =
        { m with profiles := m.profiles.set m.profileCount p,
                 profileCount := m.profileCount + 1 } := by
      unfold addProfile
      rw [if_neg (by omega), hfind]
    have hscan : ∀ x, scanProfiles (m.profiles.set m.profileCount p) x 0 m.profileCount =
        scanProfiles m.profiles x 0 m.profileCount := by
      intro x
      apply scanProfiles_congr
      intro k _ hk
      simp [List.getElem?_set, show m.profileCount ≠ k by omega]
    have hidx : ∀ x, findProfileIndex { m with
          profiles := m.profiles.set m.profileCount p,
          profileCount := m.profileCount + 1 } x =
        match findProfileIndex m x with
        | some j => some j
        | none => if p.id = x then some m.profileCount else none := by
      intro x
      unfold findProfileIndex
      simp only []
      rw [scanProfiles_succ, hscan]
      simp [List.getElem?_set, hclen]
    rw [hadd]
    refine ⟨?_, ?_, Or.inr ⟨(findProfileById_none_iff m p.id).mpr hfind, ?_⟩⟩
    · unfold findProfileById
      rw [hidx, hfind]
      simp [hclen]
    · intro j hj
      unfold findProfileById
      rw [hidx]
      cases hjx : findProfileIndex m j with
      | none => simp [Ne.symm hj]
      | some k =>
        obtain ⟨-, hk, -⟩ := scanProfiles_some m.profiles j m.profileCount 0 k hjx
        simp [List.getElem?_set, show m.profileCount ≠ k by omega]
    · simp only [storedProfiles]
      exact take_succ_set _ _ _ hclen

/-- Witness for C18: the default catalog and the new profile "quick", which lands in
slot 3 after the three defaults. -/
theorem save_find_round_trip_witness :
    findProfileById (addProfile (defaultManager ⟨"", 0, false⟩) quickProfile).2 "quick" =
      some quickProfile ∧
    findProfileById (addProfile (defaultManager ⟨"", 0, false⟩) quickProfile).2 "peppers" =
      findProfileById (defaultManager ⟨"", 0, false⟩) "peppers" :=
  ⟨(save_find_round_trip (defaultManager ⟨"", 0, false⟩) quickProfile rfl rfl).1,
   (save_find_round_trip (defaultManager ⟨"", 0, false⟩) quickProfile rfl rfl).2.1
     "peppers" (by decide)⟩

/-! ## Invariants of the catalog and of the active cycle -/

theorem addProfile_cases (m : GrowthManager) (p : GrowthProfile) :
    addProfile m p = (false, m) ∨
    (∃ i q, m.profiles[i]? = some q ∧ q.id = p.id ∧ i < m.profileCount ∧
      m.profileCount < MAX_PROFILES ∧
      addProfile m p = (true, { m with profiles := m.profiles.set i p })) ∨
    (findProfileIndex m p.id = none ∧ m.profileCount < MAX_PROFILES ∧
      addProfile m p = (true, { m with profiles := m.profiles.set m.profileCount p,
                                       profileCount := m.profileCount + 1 })) := by
  unfold addProfile
  by_cases hc : m.profileCount ≥ MAX_PROFILES
  · left; rw [if_pos hc]
  · rw [if_neg hc]
    cases hfind : findProfileIndex m p.id with
    | some i =>
      obtain ⟨-, hi, q, hq, hqid⟩ :=
        scanProfiles_some m.profiles p.id m.profileCount 0 i hfind
      exact Or.inr (Or.inl ⟨i, q, hq, hqid, by omega, by omega, rfl⟩)
    | none => exact Or.inr (Or.inr ⟨rfl, by omega, rfl⟩)

theorem updateProfile_cases (m : GrowthManager) (id : String) (p : GrowthProfile) :
    (findProfileIndex m id = none ∧ updateProfile m id p = (false, m)) ∨
    (∃ i q, findProfileIndex m id = some i ∧ m.profiles[i]? = some q ∧ q.id = id ∧
      i < m.profileCount ∧
      updateProfile m id p =
        (true, { m with profiles := m.profiles.set i { p with id := id } })) := by
  unfold updateProfile
  cases hfind : findProfileIndex m id with
  | none => exact Or.inl ⟨rfl, rfl⟩
  | some i =>
    obtain ⟨-, hi, q, hq, hqid⟩ := scanProfiles_some m.profiles id m.profileCount 0 i hfind
    exact Or.inr ⟨i, q, rfl, hq, hqid, by omega, rfl⟩

theorem cycle_reference_steps (a m : GrowthManager) (h : ManagerSteps a m)
    (ha : a.activeCycle.active = true →
      ∃ i q, i < a.profileCount ∧ a.profiles[i]? = some q ∧ q.id = a.activeCycle.profileId) :
    m.activeCycle.active = true →
      ∃ i q, i < m.profileCount ∧ m.profiles[i]? = some q ∧
        q.id = m.activeCycle.profileId := by
  induction h with
  | refl => exact ha
  | @addProfile m2 p _ ih =>
    intro hact
    rcases addProfile_cases m2 p with h | ⟨i0, q0, hq0, hid0, -, -, h⟩ | ⟨-, -, h⟩
    · rw [h] at hact ⊢; exact ih hact
    · rw [h] at hact ⊢
      obtain ⟨i, q, hi, hq, hqid⟩ := ih hact
      have hs := set_same_id_slots m2.profiles i0 p q0 hq0 hid0 i
      rw [hq] at hs
      cases hn : (m2.profiles.set i0 p)[i]? with
      | none => rw [hn] at hs; simp at hs
      | some r =>
        rw [hn] at hs
        simp only [Option.map_some', Option.some.injEq] at hs
        exact ⟨i, r, hi, hn, hs.trans hqid⟩
    · rw [h] at hact ⊢
      obtain ⟨i, q, hi, hq, hqid⟩ := ih hact
      refine ⟨i, q, Nat.lt_succ_of_lt hi, ?_, hqid⟩
      simp only [List.getElem?_set, show m2.profileCount ≠ i by omega, if_false]
      exact hq
  | @updateProfile m2 id p _ ih =>
    intro hact
    rcases updateProfile_cases m2 id p with ⟨-, h⟩ | ⟨i0, q0, -, hq0, hid0, -, h⟩
    · rw [h] at hact ⊢; exact ih hact
    · rw [h] at hact ⊢
      obtain ⟨i, q, hi, hq, hqid⟩ := ih hact
      have hs := set_same_id_slots m2.profiles i0 { p with id := id } q0 hq0 hid0 i
      rw [hq] at hs
      cases hn : (m2.profiles.set i0 { p with id := id })[i]? with
      | none => rw [hn] at hs; simp at hs
      | some r =>
        rw [hn] at hs
        simp only [Option.map_some', Option.some.injEq] at hs
        exact ⟨i, r, hi, hn, hs.trans hqid⟩
  | @startGrowthCycle m2 profileId startTime _ ih =>
    intro hact
    unfold startGrowthCycle at hact ⊢
    cases hfind : findProfileIndex m2 profileId with
    | none => rw [hfind] at hact; exact ih hact
    | some j =>
      obtain ⟨-, hj, q, hq, hqid⟩ :=
        scanProfiles_some m2.profiles profileId m2.profileCount 0 j hfind
      exact ⟨j, q, by simpa using hj, hq, hqid⟩
  | stopGrowthCycle _ ih =>
    intro hact
    simp [stopGrowthCycle] at hact

theorem loadActiveCycle_reference (m : GrowthManager) (prefs : Preferences) :
    (loadActiveCycle m prefs).1.activeCycle.active = true →
      ∃ i q, i < (loadActiveCycle m prefs).1.profileCount ∧
        (loadActiveCycle m prefs).1.profiles[i]? = some q ∧
        q.id = (loadActiveCycle m prefs).1.activeCycle.profileId := by
  unfold loadActiveCycle
  cases hc : prefs.activeCycle with
  | none => intro h; simp at h
  | some c =>
    simp only []
    cases hs : scanProfiles m.profiles c.profileId 0 m.profileCount with
    | none =>
      cases hact : c.active with
      | true => intro h; simp at h
      | false => intro h; simp [hact] at h
    | some j =>
      intro _
      obtain ⟨-, hj, q, hq, hqid⟩ :=
        scanProfiles_some m.profiles c.profileId m.profileCount 0 j hs
      simp only [Option.isSome_some, Bool.not_true, Bool.false_and, Bool.false_eq_true,
        if_false]
      exact ⟨j, q, by simpa using hj, hq, hqid⟩

/-- C16. In every state reached from `begin()`, whatever the persistent storage held, by
any sequence of `addProfile`, `updateProfile`, `startGrowthCycle` and `stopGrowthCycle`
calls: if the cycle is active, its `profileId` is the id of a profile stored in a slot
below `_profileCount`. -/
theorem active_cycle_references_profile (m0 : GrowthManager) (prefs : Preferences)
    (m : GrowthManager) (hreach : ManagerSteps (begin m0 prefs).1 m)
    (hactive : m.activeCycle.active = true) :
    ∃ i q, i < m.profileCount ∧ m.profiles[i]? = some q ∧
      q.id = m.activeCycle.profileId :=
  cycle_reference_steps (begin m0 prefs).1 m hreach
    (loadActiveCycle_reference _ _) hactive

/-- Witness for C16: first start with empty storage, then `startGrowthCycle("lettuce")`;
the cycle is active and slot 2 holds the profile it names. -/
theorem active_cycle_references_profile_witness :
    ∃ i q, i < (startGrowthCycle (begin ⟨List.replicate 10 blankProfile, 0, ⟨"", 0, false⟩⟩
          ⟨0, [], none⟩).1 "lettuce" 1700000000).2.profileCount ∧
      (startGrowthCycle (begin ⟨List.replicate 10 blankProfile, 0, ⟨"", 0, false⟩⟩
          ⟨0, [], none⟩).1 "lettuce" 1700000000).2.profiles[i]? = some q ∧
      q.id = (startGrowthCycle (begin ⟨List.replicate 10 blankProfile, 0, ⟨"", 0, false⟩⟩
          ⟨0, [], none⟩).1 "lettuce" 1700000000).2.activeCycle.profileId :=
  active_cycle_references_profile ⟨List.replicate 10 blankProfile, 0, ⟨"", 0, false⟩⟩
    ⟨0, [], none⟩ _
    (ManagerSteps.startGrowthCycle "lettuce" 1700000000 (ManagerSteps.refl _)) rfl

theorem mem_stored_ids (ps : List GrowthProfile) (n : Nat) (x : String)
    (h : x ∈ (ps.take n).map GrowthProfile.id) :
    ∃ k q, k < n ∧ ps[k]? = some q ∧ q.id = x := by
  obtain ⟨q, hq, hqx⟩ := List.mem_map.mp h
  obtain ⟨k, hk⟩ := List.mem_iff_getElem?.mp hq
  rw [List.getElem?_take] at hk
  by_cases hkn : k < n
  · rw [if_pos hkn] at hk
    exact ⟨k, q, hkn, hk, hqx⟩
  · rw [if_neg hkn] at hk
    exact absurd hk (by simp)

/-- The catalog invariant: at most `MAX_PROFILES` profiles, ten slots, distinct ids. -/
theorem catalog_invariant_steps (a m : GrowthManager) (h : ManagerSteps a m)
    (ha : a.profileCount ≤ MAX_PROFILES ∧ a.profiles.length = MAX_PROFILES ∧
      ((storedProfiles a).map GrowthProfile.id).Nodup) :
    m.profileCount ≤ MAX_PROFILES ∧ m.profiles.length = MAX_PROFILES ∧
      ((storedProfiles m).map GrowthProfile.id).Nodup := by
  induction h with
  | refl => exact ha
  | @addProfile m2 p _ ih =>
    obtain ⟨i1, i2, i3⟩ := ih
    rcases addProfile_cases m2 p with h | ⟨i0, q0, hq0, hid0, -, -, h⟩ | ⟨hnone, hcap, h⟩
    · rw [h]; exact ⟨i1, i2, i3⟩
    · rw [h]
      refine ⟨i1, by simpa using i2, ?_⟩
      simp only [storedProfiles] at i3 ⊢
      rw [ids_congr _ _ (set_same_id_slots m2.profiles i0 p q0 hq0 hid0)]
      exact i3
    · rw [h]
      refine ⟨by simpa using hcap, by simpa using i2, ?_⟩
      simp only [storedProfiles] at i3 ⊢
      rw [take_succ_set _ _ _ (by rw [i2]; exact hcap), List.map_append, List.map_singleton]
      refine List.Nodup.append i3 (List.nodup_singleton _) ?_
      intro x hx1 hx2
      rw [List.mem_singleton] at hx2
      subst hx2
      obtain ⟨k, q, hk, hq, hqx⟩ := mem_stored_ids _ _ _ hx1
      exact scanProfiles_none m2.profiles p.id m2.profileCount 0 hnone k q (Nat.zero_le _)
        (by omega) hq hqx
  | @updateProfile m2 id p _ ih =>
    obtain ⟨i1, i2, i3⟩ := ih
    rcases updateProfile_cases m2 id p with ⟨-, h⟩ | ⟨i0, q0, -, hq0, hid0, -, h⟩
    · rw [h]; exact ⟨i1, i2, i3⟩
    · rw [h]
      refine ⟨i1, by simpa using i2, ?_⟩
      simp only [storedProfiles] at i3 ⊢
      rw [ids_congr _ _ (set_same_id_slots m2.profiles i0 { p with id := id } q0 hq0 hid0)]
      exact i3
  | @startGrowthCycle m2 profileId startTime _ ih =>
    unfold startGrowthCycle
    cases findProfileIndex m2 profileId <;> exact ih
  | stopGrowthCycle _ ih => exact ih

/-- C19. Starting from the default catalog (tomatoes, peppers, lettuce), after any
sequence of `addProfile` and `updateProfile` calls (cycle starts and stops may be mixed
in) no two stored profiles have the same id and the profile count is at most
`MAX_PROFILES`. In such a state `updateProfile(id, p)` fails and changes nothing when `id`
is not stored; otherwise it succeeds and the slot that held `id` holds `p` with its name
and stages under the original id, every other slot and the count being unchanged. -/
theorem profile_ids_stay_unique (c : GrowthCycle) (m : GrowthManager)
    (hreach : ManagerSteps (defaultManager c) m) :
    ((storedProfiles m).map GrowthProfile.id).Nodup ∧
    m.profileCount ≤ MAX_PROFILES ∧
    (∀ id p, findProfileById m id = none → updateProfile m id p = (false, m)) ∧
    (∀ id p i, findProfileIndex m id = some i →
      (updateProfile m id p).1 = true ∧
      (updateProfile m id p).2.profileCount = m.profileCount ∧
      (updateProfile m id p).2.profiles[i]? =
        some ⟨id, p.name, p.seedling, p.growing, p.harvesting⟩ ∧
      (∀ k, k ≠ i → (updateProfile m id p).2.profiles[k]? = m.profiles[k]?) ∧
      findProfileById (updateProfile m id p).2 id =
        some ⟨id, p.name, p.seedling, p.growing, p.harvesting⟩) := by
  have hdef : (defaultManager c).profileCount ≤ MAX_PROFILES ∧
      (defaultManager c).profiles.length = MAX_PROFILES ∧
      ((storedProfiles (defaultManager c)).map GrowthProfile.id).Nodup := by
    have hids : (storedProfiles (defaultManager c)).map GrowthProfile.id =
        ["tomatoes", "peppers", "lettuce"] := rfl
    refine ⟨by simp [defaultManager, MAX_PROFILES], rfl, ?_⟩
    rw [hids]
    decide
  obtain ⟨h1, h2, h3⟩ := catalog_invariant_steps (defaultManager c) m hreach hdef
  refine ⟨h3, h1, ?_, ?_⟩
  · intro id p hnone
    rw [findProfileById_none_iff] at hnone
    unfold updateProfile
    rw [hnone]
  · intro id p i hfind
    obtain ⟨-, hi, q, hq, hqid⟩ := scanProfiles_some m.profiles id m.profileCount 0 i hfind
    have hilen : i < m.profiles.length := by
      rcases Nat.lt_or_ge i m.profiles.length with h | h
      · exact h
      · rw [List.getElem?_eq_none h] at hq
        exact absurd hq (by simp)
    have hupd : updateProfile m id p =
        (true, { m with profiles := m.profiles.set i { p with id := id } }) := by
      unfold updateProfile
      rw [hfind]
    rw [hupd]
    refine ⟨rfl, rfl, by simp [hilen], fun k hk => by simp [List.getElem?_set, Ne.symm hk], ?_⟩
    unfold findProfileById
    rw [findProfileIndex_set_same_id m i { p with id := id } q hq hqid, hfind]
    simp [hilen]

/-- Witness for C19: the default catalog after `addProfile(quick)` and
`updateProfile("peppers", quick)`. -/
theorem profile_ids_stay_unique_witness :
    ((storedProfiles (updateProfile (addProfile (defaultManager ⟨"", 0, false⟩)
      quickProfile).2 "peppers" quickProfile).2).map GrowthProfile.id).Nodup ∧
    (updateProfile (addProfile (defaultManager ⟨"", 0, false⟩) quickProfile).2 "peppers"
      quickProfile).2.profileCount ≤ MAX_PROFILES :=
  ⟨(profile_ids_stay_unique ⟨"", 0, false⟩ _
      (ManagerSteps.updateProfile "peppers" quickProfile
        (ManagerSteps.addProfile quickProfile (ManagerSteps.refl _)))).1,
   (profile_ids_stay_unique ⟨"", 0, false⟩ _
      (ManagerSteps.updateProfile "peppers" quickProfile
        (ManagerSteps.addProfile quickProfile (ManagerSteps.refl _)))).2.1⟩

/-! ## Light window -/

theorem wateringStart_lights (stage : GrowthStage) (inp : TickInput) (g : Globals) :
    (wateringStart stage inp g).1.relayController.lights = g.relayController.lights := by
  rcases wateringStart_cases stage inp g with h | _
  · rw [h]
  · simp only [wateringStart]
    split_ifs <;> simp [RelayController.setState, RELAY_PUMP]

theorem pumpDuration_lights (stage : GrowthStage) (inp : TickInput) (g : Globals) :
    (pumpDurationControl stage inp g).1.relayController.lights =
      g.relayController.lights := by
  simp only [pumpDurationControl]
  split_ifs <;> simp [RelayController.setState, RELAY_PUMP]

theorem wateringStart_actions (stage : GrowthStage) (inp : TickInput) (g : Globals)
    (a : Action) (ha : a ∈ (wateringStart stage inp g).2) :
    a = Action.setState RELAY_PUMP true ∨ a = Action.publishPumpState true := by
  rcases wateringStart_cases stage inp g with h | ⟨h, -⟩
  · rw [h] at ha; simp at ha
  · rw [h, List.mem_cons] at ha
    rcases ha with h1 | h1
    · exact Or.inl h1
    · exact Or.inr (publishIf_mem _ _ _ h1)

/-- The lights effects of a tick are those of its light section. -/
theorem control_light_actions (stage : GrowthStage) (name : String) (inp : TickInput)
    (g : Globals) (a : Action)
    (hl : (∃ b, a = Action.setState RELAY_LIGHTS b) ∨ (∃ b, a = Action.publishLightsState b)) :
    a ∈ (controlWithStage stage name inp g).2 ↔ a ∈ (lightControl stage inp g).2 := by
  simp only [controlWithStage, List.mem_append]
  constructor
  · rintro (((h | h) | h) | h)
    · exact h
    · rcases wateringStart_actions stage inp _ a h with h1 | h1 <;>
        rcases hl with ⟨b, hb⟩ | ⟨b, hb⟩ <;> rw [hb] at h1 <;>
        simp [RELAY_LIGHTS, RELAY_PUMP] at h1
    · rcases (pumpDuration_actions stage inp _ a h).1 with h1 | h1 <;>
        rcases hl with ⟨b, hb⟩ | ⟨b, hb⟩ <;> rw [hb] at h1 <;>
        simp [RELAY_LIGHTS, RELAY_PUMP] at h1
    · obtain ⟨msg, hm⟩ := stagePhAlert_actions stage name inp a h
      rcases hl with ⟨b, hb⟩ | ⟨b, hb⟩ <;> rw [hb] at hm <;> simp at hm
  · intro h
    exact Or.inl (Or.inl (Or.inl h))

theorem control_lights (stage : GrowthStage) (name : String) (inp : TickInput)
    (g : Globals) :
    (controlWithStage stage name inp g).1.relayController.lights =
      (lightControl stage inp g).1.relayController.lights := by
  simp only [controlWithStage]
  rw [pumpDuration_lights, wateringStart_lights]

theorem lightControl_differs (stage : GrowthStage) (inp : TickInput) (g : Globals)
    (h : g.relayController.lights ≠ shouldLightsBeOn stage inp.currentHour) :
    lightControl stage inp g =
      ({ g with relayController :=
          g.relayController.setState RELAY_LIGHTS (shouldLightsBeOn stage inp.currentHour) },
        Action.setState RELAY_LIGHTS (shouldLightsBeOn stage inp.currentHour) ::
          publishIf inp.connected
            (Action.publishLightsState (shouldLightsBeOn stage inp.currentHour))) := by
  simp only [lightControl]
  rw [if_pos]
  simpa [RelayController.getState, RELAY_LIGHTS] using h

theorem lightControl_same (stage : GrowthStage) (inp : TickInput) (g : Globals)
    (h : g.relayController.lights = shouldLightsBeOn stage inp.currentHour) :
    lightControl stage inp g = (g, []) := by
  simp only [lightControl]
  rw [if_neg]
  simp [RelayController.getState, RELAY_LIGHTS, h]

/-- C21. For every tick that reaches the light section: afterwards the lights relay equals
the desired state; the lights relay is written, and (the broker being connected) the
lights event published, if and only if the relay state before the tick differed from the
desired state; and on the state left by the tick a light section run at the same hour with
the same stage settings changes nothing and has no effect, so a second such tick writes no
lights relay and publishes no lights event. -/
theorem light_tick_idempotent (gm : GrowthManager) (inp : TickInput) (g : Globals)
    (stage : GrowthStage)
    (hactive : gm.activeCycle.active = true) (htime : 1000000000 ≤ inp.now)
    (hstage : getCurrentStageSettings gm inp.now = some stage) :
    (updateRelaysBasedOnCycle gm inp g).1.relayController.lights =
      shouldLightsBeOn stage inp.currentHour ∧
    (∀ b, Action.setState RELAY_LIGHTS b ∈ (updateRelaysBasedOnCycle gm inp g).2 ↔
      (g.relayController.lights ≠ shouldLightsBeOn stage inp.currentHour ∧
        b = shouldLightsBeOn stage inp.currentHour)) ∧
    (∀ b, Action.publishLightsState b ∈ (updateRelaysBasedOnCycle gm inp g).2 ↔
      (g.relayController.lights ≠ shouldLightsBeOn stage inp.currentHour ∧
        inp.connected = true ∧ b = shouldLightsBeOn stage inp.currentHour)) ∧
    (∀ inp2 : TickInput, inp2.currentHour = inp.currentHour →
      lightControl stage inp2 (updateRelaysBasedOnCycle gm inp g).1 =
        ((updateRelaysBasedOnCycle gm inp g).1, [])) ∧
    (∀ (gm2 : GrowthManager) (inp2 : TickInput),
      gm2.activeCycle.active = true → 1000000000 ≤ inp2.now →
      getCurrentStageSettings gm2 inp2.now = some stage →
      inp2.currentHour = inp.currentHour →
      (updateRelaysBasedOnCycle gm2 inp2
        (updateRelaysBasedOnCycle gm inp g).1).1.relayController.lights =
        (updateRelaysBasedOnCycle gm inp g).1.relayController.lights ∧
      ∀ b, Action.setState RELAY_LIGHTS b ∉ (updateRelaysBasedOnCycle gm2 inp2
          (updateRelaysBasedOnCycle gm inp g).1).2 ∧
        Action.publishLightsState b ∉ (updateRelaysBasedOnCycle gm2 inp2
          (updateRelaysBasedOnCycle gm inp g).1).2) := by
  rw [tick_reaches_stage gm inp g stage hactive htime hstage]
  have hafter : (controlWithStage stage (getCurrentGrowthStage gm inp.now) inp
      g).1.relayController.lights = shouldLightsBeOn stage inp.currentHour := by
    rw [control_lights]
    by_cases hd : g.relayController.lights = shouldLightsBeOn stage inp.currentHour
    · rw [lightControl_same stage inp g hd]; exact hd
    · rw [lightControl_differs stage inp g hd]
      simp [RelayController.setState, RELAY_LIGHTS]
  have hsecond : ∀ inp2 : TickInput, inp2.currentHour = inp.currentHour →
      lightControl stage inp2 (controlWithStage stage (getCurrentGrowthStage gm inp.now)
        inp g).1 =
        ((controlWithStage stage (getCurrentGrowthStage gm inp.now) inp g).1, []) := by
    intro inp2 hh
    exact lightControl_same stage inp2 _ (by rw [hh]; exact hafter)
  refine ⟨hafter, ?_, ?_, hsecond, ?_⟩
  · intro b
    rw [control_light_actions stage _ inp g _ (Or.inl ⟨b, rfl⟩)]
    by_cases hd : g.relayController.lights = shouldLightsBeOn stage inp.currentHour
    · rw [lightControl_same stage inp g hd]
      simp [hd]
    · rw [lightControl_differs stage inp g hd]
      cases hc : inp.connected <;> simp [publishIf, hd]
  · intro b
    rw [control_light_actions stage _ inp g _ (Or.inr ⟨b, rfl⟩)]
    by_cases hd : g.relayController.lights = shouldLightsBeOn stage inp.currentHour
    · rw [lightControl_same stage inp g hd]
      simp [hd]
    · rw [lightControl_differs stage inp g hd]
      cases hc : inp.connected <;> simp [publishIf, hd]
  · intro gm2 inp2 ha2 ht2 hs2 hh
    rw [tick_reaches_stage gm2 inp2 _ stage ha2 ht2 hs2]
    refine ⟨?_, fun b => ⟨?_, ?_⟩⟩
    · rw [control_lights, hsecond inp2 hh]
    · rw [control_light_actions stage _ inp2 _ _ (Or.inl ⟨b, rfl⟩), hsecond inp2 hh]
      simp
    · rw [control_light_actions stage _ inp2 _ _ (Or.inr ⟨b, rfl⟩), hsecond inp2 hh]
      simp

/-- Witness for C21: the first tick of the tomato cycle at noon (lights 6..14 h) finds the
lights off and switches them on. -/
theorem light_tick_idempotent_witness :
    (updateRelaysBasedOnCycle (defaultManager ⟨"tomatoes", 1700000000, true⟩)
      (noonTick 1700000100) Globals.initial).1.relayController.lights =
      shouldLightsBeOn tomatoes.seedling (noonTick 1700000100).currentHour :=
  (light_tick_idempotent (defaultManager ⟨"tomatoes", 1700000000, true⟩)
    (noonTick 1700000100) Globals.initial tomatoes.seedling rfl (by decide) rfl).1

/-- C22. For every hour in 0..23, minute and second in 0..59, `lightStartHour` in 0..23,
`lightHours` in 0..24 and either lights state, the value reported as
`seconds_until_next_change` for the lights is at least 0 (in fact at least 1) and at most
86400. -/
theorem seconds_until_light_transition_bounds (stage : GrowthStage) (lightsState : Bool)
    (currentHour currentMinute currentSecond : Int)
    (hh0 : 0 ≤ currentHour) (hh1 : currentHour ≤ 23)
    (hm0 : 0 ≤ currentMinute) (hm1 : currentMinute ≤ 59)
    (hs0 : 0 ≤ currentSecond) (hs1 : currentSecond ≤ 59)
    (hst0 : 0 ≤ stage.lightStartHour) (hst1 : stage.lightStartHour ≤ 23)
    (hl0 : 0 ≤ stage.lightHours) (hl1 : stage.lightHours ≤ 24) :
    0 ≤ secondsUntilLightTransition stage lightsState currentHour currentMinute
      currentSecond ∧
    1 ≤ secondsUntilLightTransition stage lightsState currentHour currentMinute
      currentSecond ∧
    secondsUntilLightTransition stage lightsState currentHour currentMinute
      currentSecond ≤ 86400 := by
  have he : Int.tmod (stage.lightStartHour + stage.lightHours) 24 =
      (stage.lightStartHour + stage.lightHours) % 24 :=
    Int.tmod_eq_emod (by omega) (by decide)
  simp only [secondsUntilLightTransition, he]
  split_ifs <;> omega

/-- Witness for C22: the tomato seedling stage (lights from 6 h for 8 h) at 23:59:59 with
the lights off. -/
theorem seconds_until_light_transition_bounds_witness :
    0 ≤ secondsUntilLightTransition tomatoes.seedling false 23 59 59 ∧
    1 ≤ secondsUntilLightTransition tomatoes.seedling false 23 59 59 ∧
    secondsUntilLightTransition tomatoes.seedling false 23 59 59 ≤ 86400 :=
  seconds_until_light_transition_bounds tomatoes.seedling false 23 59 59 (by decide)
    (by decide) (by decide) (by decide) (by decide) (by decide) (by decide) (by decide)
    (by decide) (by decide)

/-! ## Guards of the control tick -/

/-- C24. A tick whose timestamp is below 1000000000, and likewise a tick without an active
cycle, leaves every global unchanged (pump and lights relays, `lastWateringTime`,
`pumpOnTime`, `firstRun`) and has no effect at all: no relay write, no pump or lights
event, no stage alert. -/
theorem unsynchronized_clock_defers (gm : GrowthManager) (inp : TickInput) (g : Globals)
    (h : inp.now < 1000000000 ∨ gm.activeCycle.active = false) :
    updateRelaysBasedOnCycle gm inp g = (g, []) := by
  unfold updateRelaysBasedOnCycle
  rcases h with h | h
  · cases ha : gm.activeCycle.active
    · simp
    · simp [h]
  · simp [h]

/-- Witness for C24: the tomato cycle ticked at timestamp 5000, from process start. -/
theorem unsynchronized_clock_defers_witness :
    updateRelaysBasedOnCycle (defaultManager ⟨"tomatoes", 1700000000, true⟩)
      (noonTick 5000) Globals.initial = (Globals.initial, []) :=
  unsynchronized_clock_defers (defaultManager ⟨"tomatoes", 1700000000, true⟩)
    (noonTick 5000) Globals.initial (Or.inl (by decide))

/-! ## Growth stage over time -/

theorem stage_of_elapsed (m : GrowthManager) (p : GrowthProfile) (now : Int)
    (hactive : m.activeCycle.active = true)
    (hfind : findProfileById m m.activeCycle.profileId = some p) :
    getCurrentGrowthStage m now =
      (if elapsedDays now m.activeCycle.startTime < toU32 p.seedling.duration then "Seedling"
       else if elapsedDays now m.activeCycle.startTime <
          toU32 (p.seedling.duration + p.growing.duration) then "Growing"
       else "Harvesting") ∧
    getCurrentStageSettings m now =
      (if elapsedDays now m.activeCycle.startTime < toU32 p.seedling.duration then
        some p.seedling
       else if elapsedDays now m.activeCycle.startTime <
          toU32 (p.seedling.duration + p.growing.duration) then some p.growing
       else some p.harvesting) := by
  unfold getCurrentGrowthStage getCurrentStageSettings
  simp only [hactive, hfind, Bool.not_true, Bool.false_eq_true, if_false]
  exact ⟨trivial, trivial⟩

/-- C26. For an active cycle on a stored profile with non-negative `int` durations and
timestamps `start ≤ now1 ≤ now2` in the 32-bit range, the stage at `now2` is not earlier
than the stage at `now1` in the order Seedling, Growing, Harvesting; in particular, if the
stage at `now1` is Harvesting, so is the stage at `now2`. -/
theorem stage_monotone (m : GrowthManager) (p : GrowthProfile) (now1 now2 : Int)
    (hactive : m.activeCycle.active = true)
    (hfind : findProfileById m m.activeCycle.profileId = some p)
    (hs0 : 0 ≤ m.activeCycle.startTime) (h01 : m.activeCycle.startTime ≤ now1)
    (h12 : now1 ≤ now2) (h2 : now2 < 4294967296)
    (hsd0 : 0 ≤ p.seedling.duration) (hsd1 : p.seedling.duration < 2147483648)
    (hgd0 : 0 ≤ p.growing.duration) (hgd1 : p.growing.duration < 2147483648) :
    stageRank (getCurrentGrowthStage m now1) ≤ stageRank (getCurrentGrowthStage m now2) ∧
    (getCurrentGrowthStage m now1 = "Harvesting" →
      getCurrentGrowthStage m now2 = "Harvesting") := by
  have hmono : elapsedDays now1 m.activeCycle.startTime ≤
      elapsedDays now2 m.activeCycle.startTime := by
    unfold elapsedDays
    rw [toU32_of_range _ (by omega) (by omega), toU32_of_range _ (by omega) (by omega)]
    apply Nat.div_le_div_right
    omega
  have hle : toU32 p.seedling.duration ≤
      toU32 (p.seedling.duration + p.growing.duration) := by
    rw [toU32_of_range _ hsd0 (by omega), toU32_of_range _ (by omega) (by omega)]
    omega
  rw [(stage_of_elapsed m p now1 hactive hfind).1, (stage_of_elapsed m p now2 hactive hfind).1]
  have r0 : stageRank "Seedling" = 0 := by decide
  have r1 : stageRank "Growing" = 1 := by decide
  have r2 : stageRank "Harvesting" = 2 := by decide
  obtain ⟨d1, d2, d3, d4, d5, d6⟩ := stage_names_distinct
  by_cases a1 : elapsedDays now1 m.activeCycle.startTime < toU32 p.seedling.duration
  · rw [if_pos a1]
    refine ⟨by rw [r0]; exact Nat.zero_le _, fun h => absurd h d2⟩
  · rw [if_neg a1]
    have b1 : ¬ elapsedDays now2 m.activeCycle.startTime < toU32 p.seedling.duration := by
      omega
    rw [if_neg b1]
    by_cases a2 : elapsedDays now1 m.activeCycle.startTime <
        toU32 (p.seedling.duration + p.growing.duration)
    · rw [if_pos a2]
      refine ⟨?_, fun h => absurd h d3⟩
      split_ifs
      · rw [r1]
      · rw [r1, r2]; decide
    · rw [if_neg a2]
      have b2 : ¬ elapsedDays now2 m.activeCycle.startTime <
          toU32 (p.seedling.duration + p.growing.duration) := by omega
      rw [if_neg b2]
      exact ⟨le_refl _, fun _ => rfl⟩

/-- Witness for C26: the tomato cycle 20 days and 60 days after its start. -/
theorem stage_monotone_witness :
    stageRank (getCurrentGrowthStage (defaultManager ⟨"tomatoes", 1700000000, true⟩)
      1701728000) ≤
    stageRank (getCurrentGrowthStage (defaultManager ⟨"tomatoes", 1700000000, true⟩)
      1705184000) :=
  (stage_monotone (defaultManager ⟨"tomatoes", 1700000000, true⟩) tomatoes 1701728000
    1705184000 rfl rfl (by decide) (by decide) (by decide) (by norm_num) (by decide)
    (by decide) (by decide) (by decide)).1

/-- C30 (counterexample). Profile "slow" (seedling 19000 days, growing 20000 days, sum
below 40000), cycle start 2000000000, now 1000000000: the wrapped difference is
3294967296 s, that is 38136 days, which is not below 19000 but below 39000, so the stage
is Growing with the growing settings, not Harvesting. -/
theorem future_start_far_ahead_is_growing :
    getCurrentGrowthStage slowManager 1000000000 = "Growing" ∧
    getCurrentGrowthStage slowManager 1000000000 ≠ "Harvesting" ∧
    getCurrentStageSettings slowManager 1000000000 = some slowProfile.growing := by
  refine ⟨by decide, by decide, rfl⟩

/-- C30 (amended). For an active cycle on a stored profile with non-negative durations,
seedling + growing below 40000 days, and a time `now` before the start by at most
838967296 s (`2^32 - 40000 * 86400`, about 26.5 years): the unsigned difference wraps to
`2^32 - (start - now)`, at least 40000 days, so `getCurrentGrowthStage` returns Harvesting
and `getCurrentStageSettings` the harvesting settings. -/
theorem future_start_is_harvesting (m : GrowthManager) (p : GrowthProfile) (now : Int)
    (hactive : m.activeCycle.active = true)
    (hfind : findProfileById m m.activeCycle.profileId = some p)
    (hlt : now < m.activeCycle.startTime)
    (hnear : m.activeCycle.startTime - now ≤ 838967296)
    (hsd0 : 0 ≤ p.seedling.duration) (hgd0 : 0 ≤ p.growing.duration)
    (hsum : p.seedling.duration + p.growing.duration < 40000) :
    toU32 (now - m.activeCycle.startTime) = 4294967296 - (m.activeCycle.startTime - now) ∧
    getCurrentGrowthStage m now = "Harvesting" ∧
    getCurrentStageSettings m now = some p.harvesting := by
  have hwrap : (toU32 (now - m.activeCycle.startTime) : Int) =
      4294967296 - (m.activeCycle.startTime - now) := by
    unfold toU32
    omega
  have hE : 40000 ≤ elapsedDays now m.activeCycle.startTime := by
    unfold elapsedDays
    omega
  have hS : toU32 p.seedling.duration < 40000 := by
    rw [toU32_of_range _ hsd0 (by omega)]; omega
  have hG : toU32 (p.seedling.duration + p.growing.duration) < 40000 := by
    rw [toU32_of_range _ (by omega) (by omega)]; omega
  obtain ⟨e1, e2⟩ := stage_of_elapsed m p now hactive hfind
  rw [e1, e2, if_neg (by omega), if_neg (by omega), if_neg (by omega), if_neg (by omega)]
  exact ⟨hwrap, rfl, rfl⟩

/-- Witness for C30 (amended): the tomato cycle queried 100 days before its start. -/
theorem future_start_is_harvesting_witness :
    getCurrentGrowthStage (defaultManager ⟨"tomatoes", 1700000000, true⟩) 1691360000 =
      "Harvesting" ∧
    getCurrentStageSettings (defaultManager ⟨"tomatoes", 1700000000, true⟩) 1691360000 =
      some tomatoes.harvesting :=
  (future_start_is_harvesting (defaultManager ⟨"tomatoes", 1700000000, true⟩) tomatoes
    1691360000 rfl rfl (by decide) (by decide) (by decide) (by decide) (by decide)).2

/-! ## Pump run time -/

theorem wateringStart_pumpOnTime (stage : GrowthStage) (inp : TickInput) (g : Globals) :
    (wateringStart stage inp g).1.pumpOnTime = g.pumpOnTime := by
  rcases wateringStart_cases stage inp g with h | ⟨-, -, -, h, -⟩
  · rw [h]
  · exact h

theorem pumpDuration_bound (stage : GrowthStage) (inp : TickInput) (g : Globals)
    (htime : 1000000000 ≤ inp.now) (hnow : inp.now < 2147483648)
    (hdur1 : 1 ≤ stage.waterDuration) (hdur2 : stage.waterDuration * 60 < 2147483648)
    (hp0 : 0 ≤ g.pumpOnTime) (hp1 : g.pumpOnTime ≤ inp.now) :
    ((pumpDurationControl stage inp g).1.relayController.pump = true →
      (pumpDurationControl stage inp g).1.pumpOnTime ≠ 0 ∧
      inp.now - (pumpDurationControl stage inp g).1.pumpOnTime < stage.waterDuration * 60) ∧
    ((pumpDurationControl stage inp g).1.relayController.pump = false →
      (pumpDurationControl stage inp g).1.pumpOnTime = 0) ∧
    (g.pumpOnTime ≠ 0 → inp.now - g.pumpOnTime ≥ stage.waterDuration * 60 →
      (pumpDurationControl stage inp g).1.relayController.pump = false) := by
  have e1 : toU32 (wrapLong (inp.now - g.pumpOnTime)) = (inp.now - g.pumpOnTime).toNat := by
    unfold toU32 wrapLong; omega
  have e2 : toU32 (stage.waterDuration * 60) = (stage.waterDuration * 60).toNat := by
    unfold toU32; omega
  simp only [pumpDurationControl, RelayController.getState, RELAY_PUMP, e1, e2]
  cases hpump : g.relayController.pump with
  | false =>
    by_cases h0 : g.pumpOnTime = 0
    · simp [hpump, h0]
    · simp [hpump, h0]
  | true =>
    by_cases h0 : g.pumpOnTime = 0
    · simp only [if_true, h0]
      refine ⟨fun _ => ⟨by simp; omega, by simp; omega⟩, fun h => ?_, fun h => absurd rfl h⟩
      simp [hpump] at h
    · by_cases hx : (inp.now - g.pumpOnTime).toNat ≥ (stage.waterDuration * 60).toNat
      · simp only [if_true, if_neg h0, if_pos hx]
        simp [RelayController.setState]
      · simp only [if_true, if_neg h0, if_neg hx]
        refine ⟨fun _ => ⟨h0, by omega⟩, fun h => ?_, fun _ h => by omega⟩
        rw [hpump] at h
        exact Bool.noConfusion h

/-- C29. After a tick that reaches the irrigation logic with `waterDuration ≥ 1` minute
(times in the 32-bit range, `pumpOnTime` not after now, as with non-decreasing
timestamps): if the pump is energized then `pumpOnTime ≠ 0` and
`now - pumpOnTime < waterDuration * 60`; if it is de-energized then `pumpOnTime = 0`. And a
tick that finds a running timer with `now - pumpOnTime ≥ waterDuration * 60` ends with the
pump off, whoever switched it on. -/
theorem pump_run_time_bounded (gm : GrowthManager) (inp : TickInput) (g : Globals)
    (stage : GrowthStage)
    (hactive : gm.activeCycle.active = true) (htime : 1000000000 ≤ inp.now)
    (hstage : getCurrentStageSettings gm inp.now = some stage)
    (hnow : inp.now < 2147483648)
    (hdur1 : 1 ≤ stage.waterDuration) (hdur2 : stage.waterDuration * 60 < 2147483648)
    (hp0 : 0 ≤ g.pumpOnTime) (hp1 : g.pumpOnTime ≤ inp.now) :
    ((updateRelaysBasedOnCycle gm inp g).1.relayController.pump = true →
      (updateRelaysBasedOnCycle gm inp g).1.pumpOnTime ≠ 0 ∧
      inp.now - (updateRelaysBasedOnCycle gm inp g).1.pumpOnTime <
        stage.waterDuration * 60) ∧
    ((updateRelaysBasedOnCycle gm inp g).1.relayController.pump = false →
      (updateRelaysBasedOnCycle gm inp g).1.pumpOnTime = 0) ∧
    (g.pumpOnTime ≠ 0 → inp.now - g.pumpOnTime ≥ stage.waterDuration * 60 →
      (updateRelaysBasedOnCycle gm inp g).1.relayController.pump = false) := by
  rw [tick_reaches_stage gm inp g stage hactive htime hstage]
  have hpot : (wateringStart stage inp (lightControl stage inp g).1).1.pumpOnTime =
      g.pumpOnTime := by
    rw [wateringStart_pumpOnTime, (lightControl_keeps stage inp g).2.2.1]
  have hb := pumpDuration_bound stage inp
    (wateringStart stage inp (lightControl stage inp g).1).1 htime hnow hdur1 hdur2
    (by rw [hpot]; exact hp0) (by rw [hpot]; exact hp1)
  rw [hpot] at hb
  exact hb

/-- Witness for C29: the pump was switched on by hand while the timer still held
1700000100; the tick 400 s later, past the 5 minute duration, switches it off. -/
theorem pump_run_time_bounded_witness :
    (updateRelaysBasedOnCycle (defaultManager ⟨"tomatoes", 1700000000, true⟩)
      (noonTick 1700000500)
      ⟨⟨true, true, false, false⟩, 1700000100, 1700000100, false⟩).1.relayController.pump
      = false :=
  (pump_run_time_bounded (defaultManager ⟨"tomatoes", 1700000000, true⟩)
    (noonTick 1700000500) ⟨⟨true, true, false, false⟩, 1700000100, 1700000100, false⟩
    tomatoes.seedling rfl (by decide) rfl (by decide) (by decide) (by decide) (by decide)
    (by decide)).2.2 (by decide) (by decide)

/-! ## Progress percentages -/

theorem percent_quotient (a b : Int) (h0 : 0 ≤ a) (hlt : a < b)
    (hr : a * 100 < 2147483648) :
    ∃ v, intDiv (wrapLong (a * 100)) b = some v ∧ 0 ≤ v ∧ v < 100 := by
  have hb : b ≠ 0 := by omega
  have hw : wrapLong (a * 100) = a * 100 := wrapLong_of_range _ (by omega) hr
  have hq0 : 0 ≤ Int.tdiv (a * 100) b := Int.tdiv_nonneg (by omega) (by omega)
  have hq1 : Int.tdiv (a * 100) b < 100 := by
    rw [Int.tdiv_eq_ediv (by omega) (by omega)]
    apply Int.ediv_lt_of_lt_mul (by omega)
    nlinarith
  refine ⟨Int.tdiv (a * 100) b, ?_, hq0, hq1⟩
  unfold intDiv
  rw [if_neg hb, hw, wrapLong_of_range _ (by omega) (by omega)]

/-- C28. For a profile with non-negative stage durations whose sum fits an `int`, and an
`elapsedDays ≥ 0` whose hundredfold fits an `int` (the handler's value is at most 24855):
the progress computation divides by no zero, each of the three percentages lies in 0..100,
a stage already completed shows 100 and a stage not yet started shows 0. -/
theorem progress_bounded (profile : GrowthProfile) (elapsedDays : Int)
    (hE0 : 0 ≤ elapsedDays) (hE1 : elapsedDays * 100 < 2147483648)
    (hs : 0 ≤ profile.seedling.duration) (hg : 0 ≤ profile.growing.duration)
    (hh : 0 ≤ profile.harvesting.duration)
    (hsum : profile.seedling.duration + profile.growing.duration +
      profile.harvesting.duration < 2147483648) :
    ∃ pr, stageProgress profile elapsedDays = some pr ∧
      (0 ≤ pr.seedling ∧ pr.seedling ≤ 100) ∧
      (0 ≤ pr.growing ∧ pr.growing ≤ 100) ∧
      (0 ≤ pr.harvesting ∧ pr.harvesting ≤ 100) ∧
      (profile.seedling.duration ≤ elapsedDays → pr.seedling = 100) ∧
      (profile.seedling.duration + profile.growing.duration ≤ elapsedDays →
        pr.growing = 100) ∧
      (profile.seedling.duration + profile.growing.duration +
        profile.harvesting.duration ≤ elapsedDays → pr.harvesting = 100) ∧
      (elapsedDays < profile.seedling.duration → pr.growing = 0) ∧
      (elapsedDays < profile.seedling.duration + profile.growing.duration →
        pr.harvesting = 0) := by
  have w1 : wrapLong (profile.seedling.duration + profile.growing.duration) =
      profile.seedling.duration + profile.growing.duration :=
    wrapLong_of_range _ (by omega) (by omega)
  have w2 : wrapLong (profile.seedling.duration + profile.growing.duration +
      profile.harvesting.duration) = profile.seedling.duration +
      profile.growing.duration + profile.harvesting.duration :=
    wrapLong_of_range _ (by omega) (by omega)
  have w3 : wrapLong (elapsedDays - profile.seedling.duration) =
      elapsedDays - profile.seedling.duration :=
    wrapLong_of_range _ (by omega) (by omega)
  have w4 : wrapLong (elapsedDays - profile.seedling.duration - profile.growing.duration) =
      elapsedDays - profile.seedling.duration - profile.growing.duration :=
    wrapLong_of_range _ (by omega) (by omega)
  simp only [stageProgress, w1, w2, w3, w4]
  by_cases c1 : elapsedDays < profile.seedling.duration
  · obtain ⟨v, hv, v0, v1⟩ := percent_quotient elapsedDays profile.seedling.duration hE0 c1 hE1
    rw [if_pos c1, hv]
    refine ⟨_, rfl, ?_⟩
    dsimp only
    refine ⟨⟨?_, ?_⟩, ⟨?_, ?_⟩, ⟨?_, ?_⟩, ?_, ?_, ?_, ?_, ?_⟩ <;> intros <;> omega
  · rw [if_neg c1]
    by_cases c2 : elapsedDays < profile.seedling.duration + profile.growing.duration
    · obtain ⟨v, hv, v0, v1⟩ := percent_quotient (elapsedDays - profile.seedling.duration)
        profile.growing.duration (by omega) (by omega) (by omega)
      rw [if_pos c2, hv]
      refine ⟨_, rfl, ?_⟩
      dsimp only
      refine ⟨⟨?_, ?_⟩, ⟨?_, ?_⟩, ⟨?_, ?_⟩, ?_, ?_, ?_, ?_, ?_⟩ <;> intros <;> omega
    · rw [if_neg c2]
      by_cases c3 : elapsedDays < profile.seedling.duration + profile.growing.duration +
          profile.harvesting.duration
      · obtain ⟨v, hv, v0, v1⟩ := percent_quotient
          (elapsedDays - profile.seedling.duration - profile.growing.duration)
          profile.harvesting.duration (by omega) (by omega) (by omega)
        rw [if_pos c3, hv]
        refine ⟨_, rfl, ?_⟩
        dsimp only
        refine ⟨⟨?_, ?_⟩, ⟨?_, ?_⟩, ⟨?_, ?_⟩, ?_, ?_, ?_, ?_, ?_⟩ <;> intros <;> omega
      · rw [if_neg c3]
        refine ⟨_, rfl, ?_⟩
        dsimp only
        refine ⟨⟨?_, ?_⟩, ⟨?_, ?_⟩, ⟨?_, ?_⟩, ?_, ?_, ?_, ?_, ?_⟩ <;> intros <;> omega

/-- The `elapsedDays` of the handler is at most 24855 in absolute value. -/
theorem statusElapsedDays_range (now startTime : Int) :
    -24855 ≤ statusElapsedDays now startTime ∧ statusElapsedDays now startTime ≤ 24855 := by
  have h1 : -2147483648 ≤ wrapLong (now - startTime) := by unfold wrapLong; omega
  have h2 : wrapLong (now - startTime) < 2147483648 := by unfold wrapLong; omega
  unfold statusElapsedDays
  generalize wrapLong (now - startTime) = x at h1 h2
  have hq : -24855 ≤ Int.tdiv x (24 * 60 * 60) ∧ Int.tdiv x (24 * 60 * 60) ≤ 24855 := by
    rcases le_or_lt 0 x with hx | hx
    · rw [Int.tdiv_eq_ediv hx (by decide)]
      omega
    · have hneg : Int.tdiv x (24 * 60 * 60) = -(Int.tdiv (-x) (24 * 60 * 60)) := by
        rw [Int.neg_tdiv, neg_neg]
      rw [hneg, Int.tdiv_eq_ediv (by omega) (by decide)]
      omega
  rw [wrapLong_of_range _ (by omega) (by omega)]
  exact hq

/-- Witness for C28: the tomato profile 20 days into the cycle. -/
theorem progress_bounded_witness :
    ∃ pr, stageProgress tomatoes 20 = some pr ∧
      (0 ≤ pr.seedling ∧ pr.seedling ≤ 100) ∧
      (0 ≤ pr.growing ∧ pr.growing ≤ 100) ∧
      (0 ≤ pr.harvesting ∧ pr.harvesting ≤ 100) ∧
      (tomatoes.seedling.duration ≤ 20 → pr.seedling = 100) ∧
      (tomatoes.seedling.duration + tomatoes.growing.duration ≤ 20 → pr.growing = 100) ∧
      (tomatoes.seedling.duration + tomatoes.growing.duration +
        tomatoes.harvesting.duration ≤ 20 → pr.harvesting = 100) ∧
      ((20 : Int) < tomatoes.seedling.duration → pr.growing = 0) ∧
      ((20 : Int) < tomatoes.seedling.duration + tomatoes.growing.duration →
        pr.harvesting = 0) :=
  progress_bounded tomatoes 20 (by decide) (by decide) (by decide) (by decide) (by decide)
    (by decide)

/-! ## Alerts -/

/-- C23 (failing input). The sensor is not ready, or the calibration is unusable (dry =
full = 0), so the level is Undefined (`NAN`); `loop` then passes `levelPercent = 0` to
`checkAlerts`, which builds and (broker connected) publishes "Low water level! ". -/
theorem low_water_alert_on_undefined_level :
    (readLiquid false 0 0 0).lastLiquidLevel = none ∧
    (readLiquid true 5000 0 0).lastLiquidLevel = none ∧
    loopLevelPercent (readLiquid true 5000 0 0).lastLiquidLevel = 0 ∧
    alertMsg (loopLevelPercent (readLiquid true 5000 0 0).lastLiquidLevel) none =
      "Low water level! " ∧
    checkAlerts (loopLevelPercent (readLiquid true 5000 0 0).lastLiquidLevel) none true =
      [Action.publishAlert "Low water level! "] := by
  refine ⟨rfl, rfl, rfl, by decide, by decide⟩

/-- For a defined level and no pH reading the message is the low-water text exactly when
the level is below 20. -/
theorem alertMsg_defined_level (level : Int) :
    alertMsg (loopLevelPercent (some level)) none =
      (if level < 20 then "Low water level! " else "") := by
  simp only [alertMsg, loopLevelPercent, LIQUID_ALERT_PERCENT]
  split_ifs <;> rfl

/-! ## Authentication -/

/-- C25 (failing input). Default credentials admin/admin (Basic value YWRtaW46YWRtaW4=):
a request with the header "Basic d3Jvbmc6d3Jvbmc=" (wrong:wrong) is accepted; and after
`setUsername("grower")`, `setPassword("s3cret")` the old header for admin/admin is still
accepted. -/
theorem authenticate_accepts_wrong_credentials :
    HydroAuth.created.authenticate (some "Basic d3Jvbmc6d3Jvbmc=") = true ∧
    "Basic d3Jvbmc6d3Jvbmc=" ≠ "Basic YWRtaW46YWRtaW4=" ∧
    ((HydroAuth.created.setUsername "grower").setPassword "s3cret").authenticate
      (some "Basic YWRtaW46YWRtaW4=") = true := by
  refine ⟨by decide, by decide, by decide⟩

/-- The answer of `authenticate` does not depend on the configured credentials: every
header that starts with "Basic " is accepted, every other request refused. -/
theorem authenticate_ignores_credentials (a b : HydroAuth) (authorization : Option String) :
    a.authenticate authorization = b.authenticate authorization := rfl

/-! ## Light hours per day -/

/-- C27 (failing input). A stage with `lightStartHour = 6` and `lightHours = 0`: the end
hour equals the start hour, the wrap-around branch is taken, and the desired state is on
at every one of the 24 hours instead of at none. -/
theorem zero_light_hours_always_on :
    lightHoursOn ⟨14, 5, 60, 0, 6, 5.5, 6.5⟩ = 24 ∧
    lightHoursOn ⟨14, 5, 60, 0, 6, 5.5, 6.5⟩ ≠ 0 ∧
    shouldLightsBeOn ⟨14, 5, 60, 0, 6, 5.5, 6.5⟩ 3 = true := by
  refine ⟨by decide, by decide, by decide⟩

theorem lightHoursOn_table :
    ∀ s : Fin 24, ∀ l : Fin 25, 1 ≤ l.val →
      lightHoursOn ⟨0, 0, 0, (l.val : Int), (s.val : Int), 0, 0⟩ = l.val := by
  decide

/-- For `lightStartHour` in 0..23 and `lightHours` in 1..24 the number of hours with the
lights on is `lightHours`. -/
theorem lightHoursOn_positive (stage : GrowthStage)
    (hs0 : 0 ≤ stage.lightStartHour) (hs1 : stage.lightStartHour ≤ 23)
    (hl0 : 1 ≤ stage.lightHours) (hl1 : stage.lightHours ≤ 24) :
    (lightHoursOn stage : Int) = stage.lightHours := by
  have h := lightHoursOn_table ⟨stage.lightStartHour.toNat, by omega⟩
    ⟨stage.lightHours.toNat, by omega⟩ (by simp; omega)
  have e1 : ((stage.lightStartHour.toNat : Nat) : Int) = stage.lightStartHour := by omega
  have e2 : ((stage.lightHours.toNat : Nat) : Int) = stage.lightHours := by omega
  simp only [e1, e2] at h
  have hsame : lightHoursOn stage =
      lightHoursOn ⟨0, 0, 0, stage.lightHours, stage.lightStartHour, 0, 0⟩ := rfl
  rw [hsame, h]
  exact e2

end HCS
